import Mathlib

/-!
# Verification of the Pygochi creature-simulation core

Shallow embedding of `pygochi.py` (the `Pet` class: tick replay, death
conditions, action handlers, serialization) and proofs about it.

Modelling conventions:
* Python ints are `Int`; Python floats (timestamps, weight, probabilities)
  are `Rat`, with `Int.floor` for Python's `int(...)` / `//` on nonnegative
  values.
* The process-wide random source (`random.random()`) is an explicit stream
  `RandS = Nat → Rat` of draws in `[0,1)`; each call to the source reads the
  head and passes on the tail.
* Configuration constants are the hardcoded defaults of `DEFAULT_CONFIG`
  (no `config.ini` ships with the source file).
* Event-log entries are stored as their message text; the wall-clock
  `strftime` prefix added by `_add_event` is presentation only and carries
  no simulation state.  `deque(maxlen=N)` is a list truncated to its last
  `N` elements.
* String literals avoid apostrophes; wording otherwise follows the source.
-/

/-- Random stream: successive results of `random.random()`. -/
def RandS : Type := Nat → Rat

/-- The next draw of the stream. -/
def rhead (g : RandS) : Rat := g 0

/-- The stream after consuming one draw. -/
def rtail (g : RandS) : RandS := fun n => g (n + 1)

/-! ## Configuration constants (DEFAULT_CONFIG of pygochi.py) -/

def UPDATE_INTERVAL_SECONDS : Int := 30
def SECONDS_PER_DAY : Int := 86400
def STAT_DECAY_AMOUNT : Int := 2
def ENERGY_DECAY_AWAKE : Int := 2
def DISCIPLINE_DECAY : Int := 1
def ENERGY_REGEN_SLEEP : Int := 8
def HAPPINESS_REGEN_SLEEP : Int := 2
def HEALTH_REGEN_CLEAN_FED : Int := 1
def MEDICINE_HEALTH_GAIN : Int := 40
def SCOLD_DISCIPLINE_GAIN : Int := 15
def PET_HAPPINESS_GAIN : Int := 5
def SCOLD_HAPPINESS_LOSS : Int := 10
def TRAIN_ENERGY_COST : Int := 15
def TRICK_ENERGY_COST : Int := 15
def HEALTH_DECAY_POOP : Int := 3
def HEALTH_DECAY_HUNGER : Int := 2
def AUTO_SLEEP_ENERGY_THRESHOLD : Int := 15
def AUTO_WAKE_ENERGY_THRESHOLD : Int := 100
def MAX_HUNGER_TO_SLEEP : Int := 75
def CRITICAL_HUNGER_THRESHOLD : Int := 90
def CRITICAL_HAPPINESS_THRESHOLD : Int := 10
def CRITICAL_HEALTH_THRESHOLD : Int := 15
def CRITICAL_ENERGY_THRESHOLD : Int := 5
def MAX_POOP : Int := 4
def MAX_AGE_DAYS : Int := 20
def MAX_TIME_CRITICAL_SECONDS : Rat := 3600
/-- `UPDATE_INTERVAL_SECONDS * poop_window_seconds_multiplier (4)`. -/
def POOP_WINDOW_SECONDS : Rat := 120
def POOP_CHANCE_BASE : Rat := 5 / 100
def POOP_CHANCE_AFTER_MEAL : Rat := 40 / 100
def REFUSAL_CHANCE_DIVISOR : Int := 150
def STAGE_CHILD_AGE : Int := 1
def STAGE_TEEN_AGE : Int := 5
def STAGE_ADULT_AGE : Int := 10
def STAGE_SENIOR_AGE : Int := 15
def TRAIN_SUCCESS_DISCIPLINE_FACTOR : Rat := 150
def TRAIN_SUCCESS_HAPPINESS_FACTOR : Rat := 200
def TRAIN_DISCIPLINE_GAIN : Int := 5
def TRAIN_HAPPINESS_GAIN : Int := 10
def TRAIN_FAILURE_DISCIPLINE_LOSS : Int := -2
def TRAIN_FAILURE_HAPPINESS_LOSS : Int := -10
def TRICK_DANCE_HAPPINESS_BOOST : Int := 25
def TRICK_SING_HAPPINESS_BOOST : Int := 20
def TRICK_FETCH_HAPPINESS_BOOST : Int := 15
def EVENT_LOG_SIZE : Nat := 10

/-- A food entry of the `[Food]` config section: `restore;happiness;health;weight`. -/
structure FoodItem where
  hunger_restore : Int
  happiness_boost : Int
  health_boost : Int
  weight_gain : Rat
  deriving Repr, DecidableEq

/-- The default food table of DEFAULT_CONFIG. -/
def FOOD_ITEMS : List (String × FoodItem) :=
  [ ("apple",    ⟨15,  5,  1,  5 / 100⟩),
    ("cake",     ⟨25, 15, -2, 20 / 100⟩),
    ("veg",      ⟨10,  2,  3,  2 / 100⟩),
    ("fish",     ⟨20,  8,  2, 10 / 100⟩),
    ("treat",    ⟨ 5, 25, -1, 15 / 100⟩),
    ("vitamins", ⟨ 2,  0, 10,  1 / 100⟩) ]

/-! ## The creature state (`Pet.__init__` field set) -/

/-- All mutable fields of a `Pet` instance.  `last_needs_message` embeds the
private `_last_needs_message` buffer; `is_dead` is the negation of the spec
term `alive`. -/
structure PetState where
  name : String
  hunger : Int
  happiness : Int
  energy : Int
  health : Int
  discipline : Int
  weight : Rat
  awake : Bool
  last_updated_timestamp : Rat
  birthday_timestamp : Rat
  poop_count : Int
  last_meal_timestamp : Rat
  last_needs_message : String
  is_dead : Bool
  time_hunger_critical_start : Rat
  time_happiness_critical_start : Rat
  tricks_learned : List String
  event_log : List String
  illness_type : Option String
  deriving Repr, DecidableEq

/-- `deque.append` with `maxlen=EVENT_LOG_SIZE`: keep the newest entries. -/
def addEvent (log : List String) (msg : String) : List String :=
  let l := log ++ [msg]
  l.drop (l.length - EVENT_LOG_SIZE)

/-- `Pet.__init__(name)` at wall-clock time `now`. -/
def PetState.fresh (name : String) (now : Rat) : PetState :=
  { name := name
    hunger := 50, happiness := 50, energy := 100, health := 100, discipline := 50
    weight := 1
    awake := true
    last_updated_timestamp := now
    birthday_timestamp := now
    poop_count := 0
    last_meal_timestamp := 0
    last_needs_message := ""
    is_dead := false
    time_hunger_critical_start := 0
    time_happiness_critical_start := 0
    tricks_learned := []
    event_log := addEvent [] "Born!"
    illness_type := none }

/-- `Pet.get_age_in_days`, with `clock` standing for `time.time()`. -/
def getAgeInDays (s : PetState) (clock : Rat) : Int :=
  ⌊(clock - s.birthday_timestamp) / (SECONDS_PER_DAY : Rat)⌋

/-- `Pet.get_stage`. -/
def getStage (s : PetState) (clock : Rat) : String :=
  let age := getAgeInDays s clock
  if age < STAGE_CHILD_AGE then "Baby"
  else if age < STAGE_TEEN_AGE then "Child"
  else if age < STAGE_ADULT_AGE then "Teen"
  else if age < STAGE_SENIOR_AGE then "Adult"
  else "Senior"

/-! ## Death-condition evaluation (`Pet._check_death_conditions`) -/

/-- The `_last_needs_message` text stored on death. -/
def deathMsg (name reason : String) : String :=
  "[bold red on white] !!! " ++ name ++ " has " ++ reason ++ " !!! [/bold red on white]"

/-- The terminal state transition taken when a death reason was selected. -/
def applyDeath (s : PetState) (reason : String) : PetState :=
  { s with is_dead := true
           last_needs_message := deathMsg s.name reason
           awake := false
           event_log := addEvent s.event_log ("Died (" ++ reason ++ ")") }

/-- The `if/elif` chain of `_check_death_conditions` lines 192-197: poor
health, then stochastic old age, then the sustained-hunger tracker (set /
compare / clear).  Returns the selected reason (if any) and the state with
the hunger tracker updated.  The old-age random draw is read from `rhead g`;
whether it was consumed is accounted for by the caller. -/
def deathChainMain (s : PetState) (now clock : Rat) (g : RandS) :
    Option String × PetState :=
  if s.health ≤ 0 then (some "succumbed to poor health", s)
  else if MAX_AGE_DAYS < getAgeInDays s clock ∧
      rhead g < ((getAgeInDays s clock - MAX_AGE_DAYS : Int) : Rat) * (5 / 100) then
    (some "passed away peacefully from old age", s)
  else if 100 ≤ s.hunger then
    if s.time_hunger_critical_start = 0 then
      (none, { s with time_hunger_critical_start := now })
    else if MAX_TIME_CRITICAL_SECONDS < now - s.time_hunger_critical_start then
      (some "starved", s)
    else (none, s)
  else (none, { s with time_hunger_critical_start := 0 })

/-- The separate `if self.happiness <= 0 / elif` block (lines 198-201): the
sustained-zero-happiness tracker.  Its reason assignment overwrites any
reason picked by the main chain. -/
def despairStep (r0 : Option String) (s : PetState) (now : Rat) :
    Option String × PetState :=
  if s.happiness ≤ 0 then
    if s.time_happiness_critical_start = 0 then
      (r0, { s with time_happiness_critical_start := now })
    else if MAX_TIME_CRITICAL_SECONDS < now - s.time_happiness_critical_start then
      (some "lost the will to live", s)
    else (r0, s)
  else (r0, { s with time_happiness_critical_start := 0 })

/-- `Pet._check_death_conditions(now)`.  `now` is the reference timestamp
passed in; `clock` is `time.time()` as used by `get_age_in_days`.  The
random draw is consumed exactly when the age threshold is exceeded
(Python short-circuits `age_days > MAX and random.random() < ...`). -/
def checkDeathConditions (s : PetState) (now clock : Rat) (g : RandS) :
    PetState × RandS :=
  if s.is_dead then (s, g)
  else
    let g1 := if MAX_AGE_DAYS < getAgeInDays s clock then rtail g else g
    let c := deathChainMain s now clock g
    let f := despairStep c.1 c.2 now
    (f.1.elim f.2 (applyDeath f.2), g1)

/-! ## Tick replay (`Pet.update_needs`) -/

/-- `decay_modifier` of line 219. -/
def decayModifier (stage : String) : Rat :=
  if stage = "Senior" then 3 / 2 else if stage = "Baby" then 8 / 10 else 1

/-- Python `int(c * decay_modifier)` for a nonnegative config constant `c`
and positive modifier: truncation coincides with the floor. -/
def decayInt (c : Int) (dm : Rat) : Int := ⌊(c : Rat) * dm⌋

/-- The `happiness_drain` accumulation of lines 225-230, evaluated on the
state `s1` holding the already-updated hunger and energy.  `ch` is the
`current_health` snapshot. -/
def happinessDrain (s1 : PetState) (ch : Int) (dm : Rat) : Int :=
  let d0 := decayInt STAT_DECAY_AMOUNT dm
  let d1 := if 75 < s1.hunger then d0 + STAT_DECAY_AMOUNT / 2 else d0
  let d2 := if s1.energy < 25 then d1 + STAT_DECAY_AMOUNT / 2 else d1
  let d3 := if ch < 50 then d2 + STAT_DECAY_AMOUNT else d2
  let d4 := if s1.illness_type.isSome then d3 + STAT_DECAY_AMOUNT else d3
  if 0 < s1.poop_count then d4 + s1.poop_count * 2 else d4

/-- The awake branch of one tick (lines 222-234).  `dm` is the decay
modifier, `cit` the `current_interval_time`, `ch` the `current_health`
snapshot.  One random draw (the waste roll) is always consumed. -/
def awakeTick (s : PetState) (dm : Rat) (cit : Rat) (ch : Int) (g : RandS) :
    PetState × RandS :=
  let s1 := { s with hunger := min 100 (s.hunger + decayInt STAT_DECAY_AMOUNT dm)
                     energy := max 0 (s.energy - decayInt ENERGY_DECAY_AWAKE dm) }
  let s2 := { s1 with happiness := max 0 (s1.happiness - happinessDrain s1 ch dm) }
  let withinWindow : Prop :=
    0 < s2.last_meal_timestamp ∧ cit - s2.last_meal_timestamp ≤ POOP_WINDOW_SECONDS
  let chance := if withinWindow then POOP_CHANCE_AFTER_MEAL else POOP_CHANCE_BASE
  let s3 := if rhead g < chance ∧ s2.poop_count < MAX_POOP + 2 then
              { s2 with poop_count := s2.poop_count + 1 } else s2
  (s3, rtail g)

/-- The sleeping branch of one tick (lines 235-237). -/
def sleepTick (s : PetState) (ch : Int) : PetState :=
  let s1 := { s with energy := min 100 (s.energy + ENERGY_REGEN_SLEEP) }
  if CRITICAL_HEALTH_THRESHOLD < ch ∧ s1.illness_type = none then
    { s1 with happiness := min 100 (s1.happiness + HAPPINESS_REGEN_SLEEP) }
  else s1

/-- `health_change_this_interval` (lines 239-244), computed on the
post-branch state. -/
def healthDelta (s : PetState) : Int :=
  let e0 : Int := 0
  let e1 := if MAX_POOP ≤ s.poop_count then e0 - HEALTH_DECAY_POOP else e0
  let e2 := if CRITICAL_HUNGER_THRESHOLD ≤ s.hunger then e1 - HEALTH_DECAY_HUNGER else e1
  let e3 := if s.illness_type = some "Cold" then e2 - 2 else e2
  let e4 := if s.illness_type = some "Stomachache" then e3 - 3 else e3
  if s.poop_count = 0 ∧ s.hunger < 50 ∧ 30 < s.energy ∧ s.awake = true ∧
      s.illness_type = none then e4 + HEALTH_REGEN_CLEAN_FED else e4

/-- Illness onset rolls (lines 247-251).  The cold roll is consumed exactly
when `current_health < 50`; the stomachache roll exactly when that compound
condition failed and `hunger > 95`.  Returns the onset message, if any. -/
def illnessStep (s : PetState) (ch : Int) (g : RandS) :
    PetState × Option String × RandS :=
  if s.illness_type = none ∧ s.is_dead = false then
    let g1 := if ch < 50 then rtail g else g
    if ch < 50 ∧ rhead g < 5 / 100 then
      ({ s with illness_type := some "Cold"
                event_log := addEvent s.event_log "Caught a Cold" },
       some ("[yellow]" ++ s.name ++ " caught a Cold! 🤢[/yellow]"), g1)
    else if 95 < s.hunger ∧ rhead g1 < 10 / 100 then
      ({ s with illness_type := some "Stomachache"
                event_log := addEvent s.event_log "Got a Stomachache" },
       some ("[yellow]" ++ s.name ++ " has a Stomachache! 🤢[/yellow]"), rtail g1)
    else (s, none, if 95 < s.hunger then rtail g1 else g1)
  else (s, none, g)

/-- The `health_change_msg` update of lines 253-255. -/
def healthMsgStep (s : PetState) (hd : Int) (hm : String) : String :=
  if hd < 0 ∧ hm = "" then
    if MAX_POOP ≤ s.poop_count then "[yellow]Health declining due to mess![/yellow]"
    else if CRITICAL_HUNGER_THRESHOLD ≤ s.hunger then
      "[yellow]Health declining due to hunger![/yellow]"
    else hm
  else hm

/-- The body of loop iteration `i` of `update_needs` (lines 217-255), after
the death check.  `base` is the `last_updated_timestamp` at entry to
`update_needs` (unchanged during the loop). -/
def tickBody (stage : String) (base : Rat) (i : Nat) (s : PetState)
    (hm im : String) (g : RandS) : PetState × String × String × RandS :=
  let cit := base + ((i : Int) + 1) * (UPDATE_INTERVAL_SECONDS : Rat)
  let ch := s.health
  let dm := decayModifier stage
  let s1 := { s with discipline := max 0 (s.discipline - decayInt DISCIPLINE_DECAY dm) }
  let br := if s1.awake then awakeTick s1 dm cit ch g else (sleepTick s1 ch, g)
  let s2 := br.1
  let hd := healthDelta s2
  let s3 := { s2 with health := max 0 (min 100 (s2.health + hd)) }
  let il := illnessStep s3 ch br.2
  let im2 := il.2.1.getD im
  let hm2 := healthMsgStep il.1 hd hm
  (il.1, hm2, im2, il.2.2)

/-- Result of the replay loop. -/
structure LoopOut where
  st : PetState
  hmsg : String
  imsg : String
  rng : RandS
  died : Bool

/-- The `for i in range(intervals_passed)` loop of `update_needs`.  A death
detected by the per-tick check (evaluated at the historical instant
`base + i * interval`) aborts the loop immediately with `died = true`,
matching the early `return True` of line 215. -/
def tickLoop (stage : String) (base clock : Rat) :
    Nat → Nat → PetState → String → String → RandS → LoopOut
  | 0, _, s, hm, im, g => ⟨s, hm, im, g, false⟩
  | fuel + 1, i, s, hm, im, g =>
    let c := checkDeathConditions s (base + (i : Int) * (UPDATE_INTERVAL_SECONDS : Rat)) clock g
    if c.1.is_dead then ⟨c.1, hm, im, c.2, true⟩
    else
      let b := tickBody stage base i c.1 hm im c.2
      tickLoop stage base clock fuel (i + 1) b.1 b.2.1 b.2.2.1 b.2.2.2

/-- `Pet.update_needs()`, with `now` standing for `time.time()`.  Returns
the new state, the `needs_changed` result, and the remaining stream.
Notes: when the loop completes, `intervals_passed ≥ 1` iterations ran, so
`needs_changed` is `true` and the `interval_msg` branch of line 258 always
produces the non-empty message. -/
def updateNeeds (s : PetState) (now : Rat) (g : RandS) :
    PetState × Bool × RandS :=
  if s.is_dead then (s, false, g)
  else
    let intervals : Int :=
      ⌊(now - s.last_updated_timestamp) / (UPDATE_INTERVAL_SECONDS : Rat)⌋
    if intervals ≤ 0 then (s, false, g)
    else
      let stage := getStage s now
      let out := tickLoop stage s.last_updated_timestamp now intervals.toNat 0 s "" "" g
      if out.died then (out.st, true, out.rng)
      else
        let s1 := { out.st with last_updated_timestamp :=
          out.st.last_updated_timestamp + (intervals : Rat) * (UPDATE_INTERVAL_SECONDS : Rat) }
        let m0 := "[dim](" ++ toString intervals ++ " update intervals processed)[/dim]"
        let m1 := if out.hmsg = "" then m0 else m0 ++ "\n" ++ out.hmsg
        let m2 := if out.imsg = "" then m1 else m1 ++ "\n" ++ out.imsg
        let s2 := { s1 with last_needs_message := m2 }
        let fin := checkDeathConditions s2 now now out.rng
        (fin.1, true, fin.2)

/-! ## Action handlers -/

/-- The shared "is sleeping" rejection text. -/
def sleepingMsg (name : String) : String :=
  "[yellow]" ++ name ++ " 😴 is sleeping.[/yellow]"

/-- `Pet._should_refuse` probability. -/
def refusalChance (s : PetState) : Rat :=
  let base := if s.happiness < 20 then 3 / 10
              else if s.energy < 15 then 2 / 10
              else 5 / 100
  base + ((max 0 (100 - s.discipline) : Int) : Rat) / (REFUSAL_CHANCE_DIVISOR : Rat)

/-- `Pet._should_refuse()`: one draw against `refusalChance`. -/
def shouldRefuse (s : PetState) (g : RandS) : Bool × RandS :=
  (decide (rhead g < refusalChance s), rtail g)

/-- `Pet._get_refusal_message()`. -/
def refusalMessage (s : PetState) : String :=
  if s.happiness < 20 then "[orange1]" ++ s.name ++ " 😿 is too unhappy to listen.[/orange1]"
  else if s.energy < 15 then "[orange1]" ++ s.name ++ " 😴 is too tired.[/orange1]"
  else "[orange1]" ++ s.name ++ " 😠 ignores you.[/orange1]"

/-- `Pet.feed(food_name)`.  `now` stands for the `time.time()` stored into
`last_meal_timestamp`.  Success-message numeric formatting is elided down to
the structural pieces. -/
def feed (s : PetState) (food_name : String) (now : Rat) (g : RandS) :
    PetState × String × Bool × RandS :=
  if s.awake = false then (s, sleepingMsg s.name, false, g)
  else
    let rf := shouldRefuse s g
    if rf.1 then (s, refusalMessage s, false, rf.2)
    else
      match FOOD_ITEMS.lookup food_name with
      | none =>
        (s, "[red]Unknown food: " ++ food_name ++ ". Try: " ++
            String.intercalate ", " (FOOD_ITEMS.map (fun p => p.1)) ++ "[/red]",
         false, rf.2)
      | some food =>
        if s.illness_type = some "Stomachache" then
          (s, "[yellow]" ++ s.name ++ " 🤢 has a stomachache and does not want to eat " ++
              food_name ++ ".[/yellow]", false, rf.2)
        else
          let hd := if s.health < 40 then max 1 (food.hunger_restore / 3)
                    else if s.health < 70 then max 1 ⌊(food.hunger_restore : Rat) * (75 / 100)⌋
                    else food.hunger_restore
          let hb := if s.health < 40 then max 0 (food.happiness_boost / 2)
                    else food.happiness_boost
          let px := if s.health < 40 then
                      "[yellow]" ++ s.name ++ " 🤢 is feeling unwell and nibbles the " ++
                        food_name ++ ".[/yellow]"
                    else if s.health < 70 then
                      "[yellow]" ++ s.name ++ " eats the " ++ food_name ++ " slowly.[/yellow]"
                    else "[green]😋 " ++ s.name ++ " eats the " ++ food_name ++ ".[/green]"
          let s1 := { s with hunger := max 0 (s.hunger - hd)
                             happiness := min 100 (max 0 (s.happiness + hb))
                             health := min 100 (max 0 (s.health + food.health_boost))
                             weight := s.weight + food.weight_gain
                             last_meal_timestamp := now }
          let s2 := { s1 with event_log := addEvent s1.event_log ("Ate " ++ food_name) }
          (s2, px ++ "\nHunger -" ++ toString hd, true, rf.2)

/-- `Pet.play_game(game_type)`.  The guards of lines 297-300 are modelled;
from line 301 on the function dereferences the module global
`PLAY_ENERGY_COST`, which is defined nowhere in the source, so every call
that passes the first four guards raises `NameError` before any state
mutation — modelled as `none`.  No random draw is consumed before the
crash point. -/
def playGame (s : PetState) (_game_type : Option String) :
    Option (PetState × String × Bool) :=
  if s.awake = false then some (s, sleepingMsg s.name, false)
  else if s.illness_type = some "Cold" then
    some (s, "[yellow]" ++ s.name ++ " 🤢 has a cold and should not play.[/yellow]", false)
  else if s.health < 50 then
    some (s, "[yellow]" ++ s.name ++ " 🤢 is too unwell to play.[/yellow]", false)
  else if 80 < s.hunger then
    some (s, "[yellow]" ++ s.name ++ " 😿 is too hungry to play.[/yellow]", false)
  else none

/-- `Pet.attempt_sleep()`. -/
def attemptSleep (s : PetState) : PetState × String × Bool :=
  if s.awake = false then
    (s, "[yellow]" ++ s.name ++ " is already sleeping.[/yellow]", false)
  else if MAX_HUNGER_TO_SLEEP < s.hunger then
    (s, "[yellow]" ++ s.name ++ " 😿 is too hungry to sleep (Hunger: " ++
        toString s.hunger ++ "/" ++ toString MAX_HUNGER_TO_SLEEP ++ ").[/yellow]", false)
  else if s.health < CRITICAL_HEALTH_THRESHOLD + 10 then
    (s, "[yellow]" ++ s.name ++ " 🤢 is too unwell to sleep properly.[/yellow]", false)
  else
    ({ s with awake := false, event_log := addEvent s.event_log "Went to sleep" },
     "[purple]😴 " ++ s.name ++ " goes to sleep.[/purple]", true)

/-- `Pet.wake(reason)`.  Waking sets `awake := true` unconditionally when
the pet was not awake (a dead pet included), then runs `update_needs` and
logs the event.  Returns `none` for the Python `None` message. -/
def wake (s : PetState) (reason : Option String) (now : Rat) (g : RandS) :
    PetState × Option String × Bool × RandS :=
  if s.awake = true then (s, none, false, g)
  else
    let s1 : PetState := { s with awake := true }
    let wmsg := "[purple]:sunny: " ++ s.name ++ " wakes up!" ++
      (match reason with
       | some r => " (" ++ r ++ ")"
       | none => " (Energy: " ++ toString s.energy ++ "/100)")
    let u := updateNeeds s1 now g
    let ev := addEvent u.1.event_log ("Woke up (" ++ reason.getD "Manually" ++ ")")
    ({ u.1 with event_log := ev }, some wmsg, true, u.2.2)

/-- `Pet.clean()`.  No awake or alive precondition: only an empty-waste
check guards it. -/
def clean (s : PetState) : PetState × String × Bool :=
  if s.poop_count = 0 then (s, "[yellow]Nothing to clean! ✨[/yellow]", false)
  else
    let cleaned := s.poop_count
    let hi := min 15 (cleaned * 3)
    ({ s with poop_count := 0
              happiness := min 100 (s.happiness + hi)
              event_log := addEvent s.event_log
                ("Cleaned " ++ toString cleaned ++ " poops") },
     "[cyan]:sparkles: Cleaned up " ++ toString cleaned ++
       " 💩(s). Happiness +" ++ toString hi ++ ".[/cyan]", true)

/-- `Pet.give_medicine()`.  No awake or alive precondition: rejected only
when there is neither an illness to cure nor health below 95 to boost. -/
def giveMedicine (s : PetState) : PetState × String × Bool :=
  let illness_cured := s.illness_type.isSome
  let health_boosted := s.health < 95
  if illness_cured = false ∧ ¬health_boosted then
    (s, "[yellow]" ++ s.name ++ " does not need medicine.[/yellow]", false)
  else
    let s1 := if illness_cured then
                { s with illness_type := none
                         event_log := addEvent s.event_log
                           ("Cured " ++ s.illness_type.getD "") }
              else s
    let s2 := if health_boosted then
                { s1 with health := min 100 (s1.health + MEDICINE_HEALTH_GAIN)
                          event_log := addEvent s1.event_log "Took medicine for health" }
              else s1
    ({ s2 with happiness := max 0 (s2.happiness - 5) },
     "[magenta]:pill: " ++ s.name ++ " took medicine.[/magenta]", true)

/-- `Pet.scold()`. -/
def scold (s : PetState) : PetState × String × Bool :=
  if s.awake = false then (s, sleepingMsg s.name, false)
  else
    ({ s with discipline := min 100 (s.discipline + SCOLD_DISCIPLINE_GAIN)
              happiness := max 0 (s.happiness - SCOLD_HAPPINESS_LOSS)
              event_log := addEvent s.event_log "Was scolded" },
     "[orange1]😠 You scold " ++ s.name ++ ". Discipline +" ++
       toString SCOLD_DISCIPLINE_GAIN ++ ", Happiness -" ++
       toString SCOLD_HAPPINESS_LOSS ++ ".[/orange1]", true)

/-- `random.choice` over a nonempty list, modelled as one draw selecting an
index (`⌊r * length⌋`). -/
def choiceFrom (l : List String) (g : RandS) : String × RandS :=
  (l.getD (⌊rhead g * (l.length : Rat)⌋.toNat) "", rtail g)

/-- `Pet.train(trick_to_learn)`.  `clock` stands for the `time.time()` used
by the life-stage check. -/
def train (s : PetState) (trick_to_learn : Option String) (clock : Rat)
    (g : RandS) : PetState × String × Bool × RandS :=
  if getStage s clock = "Baby" then
    (s, "[yellow]Babies are too young to train seriously.[/yellow]", false, g)
  else if s.awake = false then (s, sleepingMsg s.name, false, g)
  else if s.energy < TRAIN_ENERGY_COST then
    (s, "[yellow]" ++ s.name ++ " 😿 is too tired to focus.[/yellow]", false, g)
  else if s.happiness < 40 then
    (s, "[yellow]" ++ s.name ++ " 😿 is not happy enough to train.[/yellow]", false, g)
  else
    let learnable := ["dance", "sing", "fetch"].filter
      (fun t => s.tricks_learned.contains t = false)
    if learnable.isEmpty then
      (s, "[green]" ++ s.name ++ " knows all the current tricks![/green]", false, g)
    else
      let tg := match trick_to_learn with
                | some t => if learnable.contains t then (t, g) else choiceFrom learnable g
                | none => choiceFrom learnable g
      let chance := (s.discipline : Rat) / TRAIN_SUCCESS_DISCIPLINE_FACTOR +
                    (s.happiness : Rat) / TRAIN_SUCCESS_HAPPINESS_FACTOR
      let succ := rhead tg.2 < chance
      let g2 := rtail tg.2
      if succ then
        ({ s with tricks_learned := s.tricks_learned ++ [tg.1]
                  energy := max 0 (s.energy - TRAIN_ENERGY_COST)
                  discipline := min 100 (max 0 (s.discipline + TRAIN_DISCIPLINE_GAIN))
                  happiness := min 100 (max 0 (s.happiness + TRAIN_HAPPINESS_GAIN))
                  event_log := addEvent s.event_log ("Learned trick: " ++ tg.1) },
         "[bold green]:sparkles: " ++ s.name ++ " learned to " ++ tg.1 ++ "![/bold green]",
         true, g2)
      else
        ({ s with energy := max 0 (s.energy - TRAIN_ENERGY_COST)
                  discipline := min 100 (max 0 (s.discipline + TRAIN_FAILURE_DISCIPLINE_LOSS))
                  happiness := min 100 (max 0 (s.happiness + TRAIN_FAILURE_HAPPINESS_LOSS))
                  event_log := addEvent s.event_log ("Failed training: " ++ tg.1) },
         "[yellow]" ++ s.name ++ " 😿 could not figure out how to " ++ tg.1 ++ ".[/yellow]",
         true, g2)

/-- The common success tail of `Pet.do_trick`. -/
def applyTrick (s : PetState) (boost : Int) (nm msg : String) (g : RandS) :
    PetState × String × Bool × RandS :=
  ({ s with happiness := min 100 (s.happiness + boost)
            energy := max 0 (s.energy - TRICK_ENERGY_COST)
            event_log := addEvent s.event_log ("Performed trick: " ++ nm) },
   msg, true, g)

/-- `Pet.do_trick(trick_name)`.  The `sing` branch consumes one draw for
the display-only `random.choice(notes)`; the chosen note affects no state. -/
def doTrick (s : PetState) (trick_name : String) (g : RandS) :
    PetState × String × Bool × RandS :=
  if s.awake = false then (s, sleepingMsg s.name, false, g)
  else if s.tricks_learned.contains trick_name = false then
    (s, "[red]" ++ s.name ++ " does not know how to " ++ trick_name ++ ". Known: " ++
        String.intercalate ", " s.tricks_learned ++ ". Try train.[/red]", false, g)
  else if s.energy < TRICK_ENERGY_COST then
    (s, "[yellow]" ++ s.name ++ " 😿 is too tired to perform.[/yellow]", false, g)
  else if trick_name = "dance" then
    applyTrick s TRICK_DANCE_HAPPINESS_BOOST "dance"
      ("[magenta]" ++ s.name ++ " danced happily! Happiness +25, Energy -15.[/magenta]") g
  else if trick_name = "sing" then
    applyTrick s TRICK_SING_HAPPINESS_BOOST "sing"
      ("[magenta]" ++ s.name ++ " sang a little tune! Happiness +20, Energy -15.[/magenta]")
      (rtail g)
  else if trick_name = "fetch" then
    applyTrick s TRICK_FETCH_HAPPINESS_BOOST "fetch"
      ("[magenta]" ++ s.name ++ " fetched imaginary stick! Happiness +15, Energy -15.[/magenta]") g
  else (s, "[red]Unknown trick logic: " ++ trick_name ++ "[/red]", false, g)

/-- `Pet.pet()`. -/
def pet (s : PetState) : PetState × String × Bool :=
  if s.awake = false then (s, sleepingMsg s.name, false)
  else
    ({ s with happiness := min 100 (s.happiness + PET_HAPPINESS_GAIN)
              event_log := addEvent s.event_log "Got petted" },
     "[pink]You pet " ++ s.name ++ ". Happiness +" ++
       toString PET_HAPPINESS_GAIN ++ ".[/pink]", true)

/-! ## Serialization (`Pet.to_dict` / `Pet.from_dict`) -/

/-- The key/value record written by `to_dict`: one optional slot per key so
that `from_dict` defaults (`data.get(key, default)`) can be modelled by
`Option.getD`. -/
structure SaveData where
  name : Option String
  hunger : Option Int
  happiness : Option Int
  energy : Option Int
  health : Option Int
  discipline : Option Int
  weight : Option Rat
  awake : Option Bool
  last_updated_timestamp : Option Rat
  birthday_timestamp : Option Rat
  poop_count : Option Int
  last_meal_timestamp : Option Rat
  is_dead : Option Bool
  time_hunger_critical_start : Option Rat
  time_happiness_critical_start : Option Rat
  tricks_learned : Option (List String)
  event_log : Option (List String)
  illness_type : Option (Option String)
  deriving Repr, DecidableEq

/-- `Pet.to_dict()`: every persisted field present. -/
def toDict (s : PetState) : SaveData :=
  { name := some s.name
    hunger := some s.hunger
    happiness := some s.happiness
    energy := some s.energy
    health := some s.health
    discipline := some s.discipline
    weight := some s.weight
    awake := some s.awake
    last_updated_timestamp := some s.last_updated_timestamp
    birthday_timestamp := some s.birthday_timestamp
    poop_count := some s.poop_count
    last_meal_timestamp := some s.last_meal_timestamp
    is_dead := some s.is_dead
    time_hunger_critical_start := some s.time_hunger_critical_start
    time_happiness_critical_start := some s.time_happiness_critical_start
    tricks_learned := some s.tricks_learned
    event_log := some s.event_log
    illness_type := some s.illness_type }

/-- A record with every field absent. -/
def emptySave : SaveData :=
  { name := none, hunger := none, happiness := none, energy := none
    health := none, discipline := none, weight := none, awake := none
    last_updated_timestamp := none, birthday_timestamp := none
    poop_count := none, last_meal_timestamp := none, is_dead := none
    time_hunger_critical_start := none, time_happiness_critical_start := none
    tricks_learned := none, event_log := none, illness_type := none }

/-- `Pet.from_dict(data)`, with `now` standing for `time.time()`.  Note the
birthday default: `data.get("last_updated_timestamp", time.time())`, not the
current time, whenever the record carries a last-update stamp.  The
constructor call re-initialises `_last_needs_message` to `""` and the event
log is rebuilt as `deque(log_list, maxlen=EVENT_LOG_SIZE)` (the newest
entries).  A record marked dead is forced asleep. -/
def fromDict (d : SaveData) (now : Rat) : PetState :=
  let default_birthday := d.last_updated_timestamp.getD now
  let s0 := PetState.fresh (d.name.getD "Critter") now
  let lg := d.event_log.getD []
  let s1 : PetState :=
    { s0 with hunger := d.hunger.getD 50
              happiness := d.happiness.getD 50
              energy := d.energy.getD 100
              health := d.health.getD 100
              discipline := d.discipline.getD 50
              weight := d.weight.getD 1
              awake := d.awake.getD true
              last_updated_timestamp := d.last_updated_timestamp.getD now
              birthday_timestamp := d.birthday_timestamp.getD default_birthday
              poop_count := d.poop_count.getD 0
              last_meal_timestamp := d.last_meal_timestamp.getD 0
              is_dead := d.is_dead.getD false
              time_hunger_critical_start := d.time_hunger_critical_start.getD 0
              time_happiness_critical_start := d.time_happiness_critical_start.getD 0
              tricks_learned := d.tricks_learned.getD []
              event_log := lg.drop (lg.length - EVENT_LOG_SIZE)
              illness_type := d.illness_type.getD none }
  if s1.is_dead then { s1 with awake := false } else s1


/-! ## Concrete sample data used by specific theorems -/

/-- The constant random stream drawing `0.5` forever: never below any of the
small event probabilities, and never refusing (for well-disciplined pets). -/
def gHalf : RandS := fun _ => 1 / 2

/-- A sleeping, fragile pet: health 2, waste-free but critically hungry
(95), so each tick costs 2 health.  Two whole intervals after
`last_updated_timestamp = 1000` the first tick drops health to 0 and the
second tick's death check aborts the replay. -/
def sC1 : PetState :=
  { name := "Rex", hunger := 95, happiness := 50, energy := 50, health := 2,
    discipline := 50, weight := 1, awake := false, last_updated_timestamp := 1000,
    birthday_timestamp := 1000, poop_count := 2, last_meal_timestamp := 0,
    last_needs_message := "", is_dead := false, time_hunger_critical_start := 0,
    time_happiness_critical_start := 0, tricks_learned := [], event_log := [],
    illness_type := none }

/-- An alive pet pinned at maximum hunger since time 100: by reference time
4000 the starvation duration (3600) is exceeded. -/
def sC5 : PetState :=
  { name := "Ivy", hunger := 100, happiness := 50, energy := 50, health := 50,
    discipline := 50, weight := 1, awake := true, last_updated_timestamp := 0,
    birthday_timestamp := 0, poop_count := 0, last_meal_timestamp := 0,
    last_needs_message := "", is_dead := false, time_hunger_critical_start := 100,
    time_happiness_critical_start := 0, tricks_learned := [], event_log := [],
    illness_type := none }

/-- An alive pet with health already at 0 *and* happiness pinned at 0 since
time 100: at reference time 4000 both the poor-health check and the despair
duration match in the same evaluation. -/
def sC6 : PetState :=
  { name := "Moss", hunger := 50, happiness := 0, energy := 50, health := 0,
    discipline := 50, weight := 1, awake := true, last_updated_timestamp := 0,
    birthday_timestamp := 0, poop_count := 0, last_meal_timestamp := 0,
    last_needs_message := "", is_dead := false, time_hunger_critical_start := 0,
    time_happiness_critical_start := 100, tricks_learned := [], event_log := [],
    illness_type := none }

/-- A dead pet as death leaves it (awake := false), with waste still
present. -/
def sDead : PetState :=
  { name := "Gus", hunger := 60, happiness := 40, energy := 30, health := 0,
    discipline := 50, weight := 1, awake := false, last_updated_timestamp := 0,
    birthday_timestamp := 0, poop_count := 2, last_meal_timestamp := 0,
    last_needs_message := "", is_dead := true, time_hunger_critical_start := 0,
    time_happiness_critical_start := 0, tricks_learned := [], event_log := [],
    illness_type := none }

/-! ## The clamp invariant -/

/-- The spec invariant: each of the five clamped stats lies in `[0, 100]`. -/
def statsIn (s : PetState) : Prop :=
  0 ≤ s.hunger ∧ s.hunger ≤ 100 ∧
  0 ≤ s.happiness ∧ s.happiness ≤ 100 ∧
  0 ≤ s.energy ∧ s.energy ≤ 100 ∧
  0 ≤ s.health ∧ s.health ≤ 100 ∧
  0 ≤ s.discipline ∧ s.discipline ≤ 100

instance (s : PetState) : Decidable (statsIn s) := by
  unfold statsIn
  infer_instance

/-! ## Helper lemmas -/

/-- `_check_death_conditions` touches only the two critical trackers and, on
death, the terminal fields: every other field survives. -/
theorem deathChainMain_shape (s : PetState) (now clock : Rat) (g : RandS) :
    ∃ t, (deathChainMain s now clock g).2 = { s with time_hunger_critical_start := t } := by
  unfold deathChainMain
  repeat' split
  all_goals first
    | exact ⟨now, rfl⟩
    | exact ⟨0, rfl⟩
    | exact ⟨s.time_hunger_critical_start, rfl⟩

theorem despairStep_shape (r0 : Option String) (s : PetState) (now : Rat) :
    ∃ t, (despairStep r0 s now).2 = { s with time_happiness_critical_start := t } := by
  unfold despairStep
  repeat' split
  all_goals first
    | exact ⟨now, rfl⟩
    | exact ⟨0, rfl⟩
    | exact ⟨s.time_happiness_critical_start, rfl⟩

/-- A death-condition evaluation only ever writes the two critical trackers
and the terminal fields (`is_dead`, `awake`, the stored message, the event
log); everything else survives unchanged. -/
theorem checkDeath_pres (s : PetState) (now clock : Rat) (g : RandS) :
    (checkDeathConditions s now clock g).1.hunger = s.hunger ∧
    (checkDeathConditions s now clock g).1.happiness = s.happiness ∧
    (checkDeathConditions s now clock g).1.energy = s.energy ∧
    (checkDeathConditions s now clock g).1.health = s.health ∧
    (checkDeathConditions s now clock g).1.discipline = s.discipline ∧
    (checkDeathConditions s now clock g).1.weight = s.weight ∧
    (checkDeathConditions s now clock g).1.last_updated_timestamp = s.last_updated_timestamp ∧
    (checkDeathConditions s now clock g).1.birthday_timestamp = s.birthday_timestamp ∧
    (checkDeathConditions s now clock g).1.poop_count = s.poop_count ∧
    (checkDeathConditions s now clock g).1.last_meal_timestamp = s.last_meal_timestamp ∧
    (checkDeathConditions s now clock g).1.tricks_learned = s.tricks_learned ∧
    (checkDeathConditions s now clock g).1.illness_type = s.illness_type ∧
    (checkDeathConditions s now clock g).1.name = s.name := by
  unfold checkDeathConditions deathChainMain despairStep
  dsimp only
  repeat' split
  all_goals simp [applyDeath]

/-- A death evaluation only ever turns `is_dead` on, never off. -/
theorem checkDeath_dead_mono (s : PetState) (now clock : Rat) (g : RandS)
    (h : s.is_dead = true) : (checkDeathConditions s now clock g).1 = s := by
  unfold checkDeathConditions
  simp [h]

/-- Fields of the state untouched by the awake branch of a tick. -/
theorem awakeTick_pres (s : PetState) (dm cit : Rat) (ch : Int) (g : RandS) :
    (awakeTick s dm cit ch g).1.name = s.name ∧
    (awakeTick s dm cit ch g).1.health = s.health ∧
    (awakeTick s dm cit ch g).1.discipline = s.discipline ∧
    (awakeTick s dm cit ch g).1.weight = s.weight ∧
    (awakeTick s dm cit ch g).1.awake = s.awake ∧
    (awakeTick s dm cit ch g).1.last_updated_timestamp = s.last_updated_timestamp ∧
    (awakeTick s dm cit ch g).1.birthday_timestamp = s.birthday_timestamp ∧
    (awakeTick s dm cit ch g).1.last_meal_timestamp = s.last_meal_timestamp ∧
    (awakeTick s dm cit ch g).1.last_needs_message = s.last_needs_message ∧
    (awakeTick s dm cit ch g).1.is_dead = s.is_dead ∧
    (awakeTick s dm cit ch g).1.time_hunger_critical_start = s.time_hunger_critical_start ∧
    (awakeTick s dm cit ch g).1.time_happiness_critical_start = s.time_happiness_critical_start ∧
    (awakeTick s dm cit ch g).1.tricks_learned = s.tricks_learned ∧
    (awakeTick s dm cit ch g).1.event_log = s.event_log ∧
    (awakeTick s dm cit ch g).1.illness_type = s.illness_type := by
  unfold awakeTick
  dsimp only
  simp only [apply_ite PetState.name, apply_ite PetState.health,
    apply_ite PetState.discipline, apply_ite PetState.weight, apply_ite PetState.awake,
    apply_ite PetState.last_updated_timestamp, apply_ite PetState.birthday_timestamp,
    apply_ite PetState.last_meal_timestamp, apply_ite PetState.last_needs_message,
    apply_ite PetState.is_dead, apply_ite PetState.time_hunger_critical_start,
    apply_ite PetState.time_happiness_critical_start, apply_ite PetState.tricks_learned,
    apply_ite PetState.event_log, apply_ite PetState.illness_type, ite_self]
  simp

/-- Fields of the state untouched by the sleeping branch of a tick. -/
theorem sleepTick_pres (s : PetState) (ch : Int) :
    (sleepTick s ch).name = s.name ∧
    (sleepTick s ch).hunger = s.hunger ∧
    (sleepTick s ch).health = s.health ∧
    (sleepTick s ch).discipline = s.discipline ∧
    (sleepTick s ch).weight = s.weight ∧
    (sleepTick s ch).awake = s.awake ∧
    (sleepTick s ch).last_updated_timestamp = s.last_updated_timestamp ∧
    (sleepTick s ch).birthday_timestamp = s.birthday_timestamp ∧
    (sleepTick s ch).poop_count = s.poop_count ∧
    (sleepTick s ch).last_meal_timestamp = s.last_meal_timestamp ∧
    (sleepTick s ch).last_needs_message = s.last_needs_message ∧
    (sleepTick s ch).is_dead = s.is_dead ∧
    (sleepTick s ch).time_hunger_critical_start = s.time_hunger_critical_start ∧
    (sleepTick s ch).time_happiness_critical_start = s.time_happiness_critical_start ∧
    (sleepTick s ch).tricks_learned = s.tricks_learned ∧
    (sleepTick s ch).event_log = s.event_log ∧
    (sleepTick s ch).illness_type = s.illness_type := by
  unfold sleepTick
  dsimp only
  simp only [apply_ite PetState.name, apply_ite PetState.hunger, apply_ite PetState.health,
    apply_ite PetState.discipline, apply_ite PetState.weight, apply_ite PetState.awake,
    apply_ite PetState.last_updated_timestamp, apply_ite PetState.birthday_timestamp,
    apply_ite PetState.poop_count, apply_ite PetState.last_meal_timestamp,
    apply_ite PetState.last_needs_message, apply_ite PetState.is_dead,
    apply_ite PetState.time_hunger_critical_start,
    apply_ite PetState.time_happiness_critical_start, apply_ite PetState.tricks_learned,
    apply_ite PetState.event_log, apply_ite PetState.illness_type, ite_self]
  simp

/-- Fields of the state untouched by the illness-onset rolls. -/
theorem illnessStep_pres (s : PetState) (ch : Int) (g : RandS) :
    (illnessStep s ch g).1.name = s.name ∧
    (illnessStep s ch g).1.hunger = s.hunger ∧
    (illnessStep s ch g).1.happiness = s.happiness ∧
    (illnessStep s ch g).1.energy = s.energy ∧
    (illnessStep s ch g).1.health = s.health ∧
    (illnessStep s ch g).1.discipline = s.discipline ∧
    (illnessStep s ch g).1.weight = s.weight ∧
    (illnessStep s ch g).1.awake = s.awake ∧
    (illnessStep s ch g).1.last_updated_timestamp = s.last_updated_timestamp ∧
    (illnessStep s ch g).1.birthday_timestamp = s.birthday_timestamp ∧
    (illnessStep s ch g).1.poop_count = s.poop_count ∧
    (illnessStep s ch g).1.last_meal_timestamp = s.last_meal_timestamp ∧
    (illnessStep s ch g).1.last_needs_message = s.last_needs_message ∧
    (illnessStep s ch g).1.is_dead = s.is_dead ∧
    (illnessStep s ch g).1.time_hunger_critical_start = s.time_hunger_critical_start ∧
    (illnessStep s ch g).1.time_happiness_critical_start = s.time_happiness_critical_start ∧
    (illnessStep s ch g).1.tricks_learned = s.tricks_learned := by
  unfold illnessStep
  dsimp only
  repeat' split
  all_goals simp

/-- Fields of the state untouched by a full tick body. -/
theorem tickBody_pres (stage : String) (base : Rat) (i : Nat) (s : PetState)
    (hm im : String) (g : RandS) :
    (tickBody stage base i s hm im g).1.name = s.name ∧
    (tickBody stage base i s hm im g).1.weight = s.weight ∧
    (tickBody stage base i s hm im g).1.awake = s.awake ∧
    (tickBody stage base i s hm im g).1.last_updated_timestamp = s.last_updated_timestamp ∧
    (tickBody stage base i s hm im g).1.birthday_timestamp = s.birthday_timestamp ∧
    (tickBody stage base i s hm im g).1.last_meal_timestamp = s.last_meal_timestamp ∧
    (tickBody stage base i s hm im g).1.last_needs_message = s.last_needs_message ∧
    (tickBody stage base i s hm im g).1.is_dead = s.is_dead ∧
    (tickBody stage base i s hm im g).1.time_hunger_critical_start = s.time_hunger_critical_start ∧
    (tickBody stage base i s hm im g).1.time_happiness_critical_start = s.time_happiness_critical_start ∧
    (tickBody stage base i s hm im g).1.tricks_learned = s.tricks_learned := by
  unfold tickBody
  dsimp only
  split <;> simp [awakeTick_pres, sleepTick_pres, illnessStep_pres]

/-- The replay loop never touches the stored last-update timestamp (the
bulk advance happens after the loop), and an aborted loop always carries a
dead state. -/
theorem tickLoop_last (stage : String) (base clock : Rat) (fuel i : Nat)
    (s : PetState) (hm im : String) (g : RandS) :
    (tickLoop stage base clock fuel i s hm im g).st.last_updated_timestamp =
      s.last_updated_timestamp := by
  induction fuel generalizing i s hm im g with
  | zero => simp [tickLoop]
  | succ n ih =>
    unfold tickLoop
    dsimp only
    split
    · exact (checkDeath_pres s _ clock g).2.2.2.2.2.2.1
    · exact ((ih _ _ _ _ _).trans
        ((tickBody_pres _ _ _ _ _ _ _).2.2.2.1)).trans
        ((checkDeath_pres s _ clock g).2.2.2.2.2.2.1)

theorem tickLoop_died (stage : String) (base clock : Rat) (fuel i : Nat)
    (s : PetState) (hm im : String) (g : RandS)
    (h : (tickLoop stage base clock fuel i s hm im g).died = true) :
    (tickLoop stage base clock fuel i s hm im g).st.is_dead = true := by
  induction fuel generalizing i s hm im g with
  | zero => simp [tickLoop] at h
  | succ n ih =>
    unfold tickLoop at h ⊢
    dsimp only at h ⊢
    split at h
    · rename_i hcond
      rw [if_pos hcond]
      exact hcond
    · rename_i hcond
      rw [if_neg hcond]
      exact ih _ _ _ _ _ h

/-- `update_needs` on a dead pet is an immediate no-op returning `False`. -/
theorem updateNeeds_dead (s : PetState) (now : Rat) (g : RandS)
    (h : s.is_dead = true) : updateNeeds s now g = (s, false, g) := by
  unfold updateNeeds
  simp [h]

/-- Post-state of `update_needs`: either the timestamp is left untouched
(no-op, or a replay aborted by death), or at least one whole interval
elapsed and the timestamp advanced by exactly that many intervals. -/
theorem updateNeeds_post (s : PetState) (now : Rat) (g : RandS) :
    ((updateNeeds s now g).1.last_updated_timestamp = s.last_updated_timestamp ∧
      ((updateNeeds s now g).1.is_dead = true ∨
        ⌊(now - s.last_updated_timestamp) / ((UPDATE_INTERVAL_SECONDS : Int) : Rat)⌋ ≤ 0)) ∨
    (1 ≤ ⌊(now - s.last_updated_timestamp) / ((UPDATE_INTERVAL_SECONDS : Int) : Rat)⌋ ∧
      (updateNeeds s now g).1.last_updated_timestamp = s.last_updated_timestamp +
        (⌊(now - s.last_updated_timestamp) / ((UPDATE_INTERVAL_SECONDS : Int) : Rat)⌋ : Int) *
          ((UPDATE_INTERVAL_SECONDS : Int) : Rat)) := by
  unfold updateNeeds
  dsimp only
  split
  · left
    constructor
    · rfl
    · left; assumption
  · split
    · left
      constructor
      · rfl
      · right; assumption
    · split
      · left
        refine ⟨tickLoop_last _ _ _ _ _ _ _ _ _, Or.inl ?_⟩
        exact tickLoop_died _ _ _ _ _ _ _ _ _ (by assumption)
      · right
        refine ⟨by omega, ?_⟩
        rw [(checkDeath_pres _ _ _ _).2.2.2.2.2.2.1]
        dsimp only
        rw [tickLoop_last]

/-- Entering `update_needs` dead, or with less than one whole elapsed
interval, returns `False` and changes nothing. -/
theorem updateNeeds_noop (s : PetState) (now : Rat) (g : RandS)
    (h : s.is_dead = true ∨
      ⌊(now - s.last_updated_timestamp) / ((UPDATE_INTERVAL_SECONDS : Int) : Rat)⌋ ≤ 0) :
    updateNeeds s now g = (s, false, g) := by
  unfold updateNeeds
  rcases h with h | h
  · simp [h]
  · dsimp only
    split
    all_goals rfl

/-! ## Claims -/

set_option maxRecDepth 100000 in
/-- C1, counterexample.  From `sC1` (asleep, energy 50, health 2, alive) two
whole tick intervals elapse (`n = 2`).  The first tick executes (energy
becomes 50 + 8 = 58, health drops to 0), the second tick's death check kills
the pet and aborts the replay, and `update_needs` then returns *without*
touching `last_updated_timestamp`: it stays 1000, not the claimed
`1000 + 1 * 30` for the `k = 1` executed ticks. -/
theorem claim_C1_counterexample :
    sC1.is_dead = false ∧ sC1.energy = 50 ∧
    ⌊((1060 : Rat) - sC1.last_updated_timestamp) / ((UPDATE_INTERVAL_SECONDS : Int) : Rat)⌋ = 2 ∧
    (updateNeeds sC1 1060 gHalf).1.is_dead = true ∧
    (updateNeeds sC1 1060 gHalf).1.energy = 58 ∧
    (updateNeeds sC1 1060 gHalf).1.last_updated_timestamp = 1000 ∧
    ¬ (updateNeeds sC1 1060 gHalf).1.last_updated_timestamp =
        sC1.last_updated_timestamp + 1 * ((UPDATE_INTERVAL_SECONDS : Int) : Rat) := by
  with_unfolding_all decide

/-- C1, amended, case by case: entering `update_needs` dead, or with less
than one whole elapsed interval, leaves the stored timestamp unchanged;
when at least one whole interval elapsed and the per-tick loop is aborted
by a mid-replay death, the pet ends dead and the timestamp is again left
exactly unchanged (the advance line never runs — not old + k tick
durations for the k executed ticks); when the loop instead runs to
completion, the timestamp ends at exactly the old value plus `n` tick
durations for the `n ≥ 1` whole elapsed intervals (never the raw current
time); and across every invocation the timestamp never decreases. -/
theorem claim_C1_amended (s : PetState) (now : Rat) (g : RandS) :
    (s.is_dead = true →
      (updateNeeds s now g).1.last_updated_timestamp = s.last_updated_timestamp) ∧
    (⌊(now - s.last_updated_timestamp) / ((UPDATE_INTERVAL_SECONDS : Int) : Rat)⌋ ≤ 0 →
      (updateNeeds s now g).1.last_updated_timestamp = s.last_updated_timestamp) ∧
    (s.is_dead = false →
      1 ≤ ⌊(now - s.last_updated_timestamp) / ((UPDATE_INTERVAL_SECONDS : Int) : Rat)⌋ →
      (tickLoop (getStage s now) s.last_updated_timestamp now
        (⌊(now - s.last_updated_timestamp) / ((UPDATE_INTERVAL_SECONDS : Int) : Rat)⌋).toNat
        0 s "" "" g).died = true →
      (updateNeeds s now g).1.is_dead = true ∧
      (updateNeeds s now g).1.last_updated_timestamp = s.last_updated_timestamp) ∧
    (s.is_dead = false →
      1 ≤ ⌊(now - s.last_updated_timestamp) / ((UPDATE_INTERVAL_SECONDS : Int) : Rat)⌋ →
      (tickLoop (getStage s now) s.last_updated_timestamp now
        (⌊(now - s.last_updated_timestamp) / ((UPDATE_INTERVAL_SECONDS : Int) : Rat)⌋).toNat
        0 s "" "" g).died = false →
      (updateNeeds s now g).1.last_updated_timestamp = s.last_updated_timestamp +
        (⌊(now - s.last_updated_timestamp) / ((UPDATE_INTERVAL_SECONDS : Int) : Rat)⌋ : Int) *
          ((UPDATE_INTERVAL_SECONDS : Int) : Rat)) ∧
    s.last_updated_timestamp ≤ (updateNeeds s now g).1.last_updated_timestamp := by
  refine ⟨?_, ?_, ?_, ?_, ?_⟩
  · intro hd
    rw [updateNeeds_dead s now g hd]
  · intro hn
    rw [updateNeeds_noop s now g (Or.inr hn)]
  · intro hd hn hdied
    unfold updateNeeds
    rw [if_neg (by simp [hd])]
    dsimp only
    rw [if_neg (by omega)]
    rw [if_pos hdied]
    exact ⟨tickLoop_died _ _ _ _ _ _ _ _ _ hdied, tickLoop_last _ _ _ _ _ _ _ _ _⟩
  · intro hd hn hdone
    unfold updateNeeds
    rw [if_neg (by simp [hd])]
    dsimp only
    rw [if_neg (by omega)]
    rw [if_neg (by simp [hdone])]
    dsimp only
    rw [(checkDeath_pres _ _ _ _).2.2.2.2.2.2.1]
    dsimp only
    rw [tickLoop_last]
  · rcases updateNeeds_post s now g with ⟨h1, -⟩ | ⟨h1, h2⟩
    · exact le_of_eq h1.symm
    · rw [h2]
      have h30 : ((UPDATE_INTERVAL_SECONDS : Int) : Rat) = 30 := by
        norm_num [UPDATE_INTERVAL_SECONDS]
      have hn : (1 : Rat) ≤
          ((⌊(now - s.last_updated_timestamp) / ((UPDATE_INTERVAL_SECONDS : Int) : Rat)⌋ : Int) : Rat) := by
        exact_mod_cast h1
      nlinarith [hn, h30]

/-- C3: a second `update_needs` at the same wall-clock instant is a no-op —
it returns `False` and leaves every field exactly as the first call left
it, whatever the first call did. -/
theorem claim_C3_idempotent (s : PetState) (now : Rat) (g gB : RandS) :
    updateNeeds (updateNeeds s now g).1 now gB = ((updateNeeds s now g).1, false, gB) := by
  apply updateNeeds_noop
  rcases updateNeeds_post s now g with ⟨h1, hd | hn⟩ | ⟨h1, h2⟩
  · left; exact hd
  · right; rw [h1]; exact hn
  · by_cases hdead : (updateNeeds s now g).1.is_dead = true
    · left; exact hdead
    · right
      rw [h2]
      have h30 : ((UPDATE_INTERVAL_SECONDS : Int) : Rat) = 30 := by
        norm_num [UPDATE_INTERVAL_SECONDS]
      set L := s.last_updated_timestamp with hL
      set n : Int := ⌊(now - L) / ((UPDATE_INTERVAL_SECONDS : Int) : Rat)⌋ with hn
      have hlt : (now - L) / ((UPDATE_INTERVAL_SECONDS : Int) : Rat) < n + 1 :=
        Int.lt_floor_add_one _
      have harg : (now - (L + (n : Rat) * ((UPDATE_INTERVAL_SECONDS : Int) : Rat))) /
          ((UPDATE_INTERVAL_SECONDS : Int) : Rat) < 1 := by
        rw [h30] at hlt ⊢
        rw [div_lt_one (by norm_num : (0 : Rat) < 30)]
        rw [div_lt_iff₀ (by norm_num : (0 : Rat) < 30)] at hlt
        linarith
      have : ⌊(now - (L + (n : Rat) * ((UPDATE_INTERVAL_SECONDS : Int) : Rat))) /
          ((UPDATE_INTERVAL_SECONDS : Int) : Rat)⌋ < 1 :=
        Int.floor_lt.mpr (by exact_mod_cast harg)
      omega

theorem decayModifier_pos (stage : String) : 0 < decayModifier stage := by
  unfold decayModifier
  repeat' split
  all_goals norm_num

theorem statsIn_checkDeath (s : PetState) (now clock : Rat) (g : RandS) :
    statsIn (checkDeathConditions s now clock g).1 ↔ statsIn s := by
  obtain ⟨h1, h2, h3, h4, h5, -⟩ := checkDeath_pres s now clock g
  unfold statsIn
  rw [h1, h2, h3, h4, h5]

theorem statsIn_illnessStep (s : PetState) (ch : Int) (g : RandS) :
    statsIn (illnessStep s ch g).1 ↔ statsIn s := by
  obtain ⟨-, h1, h2, h3, h4, h5, -⟩ := illnessStep_pres s ch g
  unfold statsIn
  rw [h1, h2, h3, h4, h5]

/-- Clamping health into `[0,100]` keeps the invariant. -/
theorem statsIn_health_clamp (s : PetState) (v : Int) (h : statsIn s) :
    statsIn { s with health := max 0 (min 100 v) } := by
  unfold statsIn at h ⊢
  dsimp only
  omega

theorem decayInt_nonneg (c : Int) (dm : Rat) (hc : 0 ≤ c) (hdm : 0 ≤ dm) :
    0 ≤ decayInt c dm := by
  unfold decayInt
  exact Int.floor_nonneg.mpr (mul_nonneg (by exact_mod_cast hc) hdm)

theorem happinessDrain_nonneg (s1 : PetState) (ch : Int) (dm : Rat)
    (hdm : 0 ≤ dm) : 0 ≤ happinessDrain s1 ch dm := by
  have hd0 : 0 ≤ decayInt STAT_DECAY_AMOUNT dm :=
    decayInt_nonneg _ _ (by decide) hdm
  have hS : STAT_DECAY_AMOUNT = 2 := rfl
  unfold happinessDrain
  dsimp only
  repeat' split
  all_goals omega

theorem awakeTick_stats (s : PetState) (dm cit : Rat) (ch : Int) (g : RandS)
    (hdm : 0 < dm) (h : statsIn s) : statsIn (awakeTick s dm cit ch g).1 := by
  obtain ⟨h1, h2, h3, h4, h5, h6, h7, h8, h9, h10⟩ := h
  unfold awakeTick statsIn
  dsimp only
  simp only [apply_ite PetState.hunger, apply_ite PetState.happiness,
    apply_ite PetState.energy, apply_ite PetState.health,
    apply_ite PetState.discipline, ite_self]
  have hdS : 0 ≤ decayInt STAT_DECAY_AMOUNT dm :=
    decayInt_nonneg _ _ (by decide) hdm.le
  have hdE : 0 ≤ decayInt ENERGY_DECAY_AWAKE dm :=
    decayInt_nonneg _ _ (by decide) hdm.le
  refine ⟨le_min (by norm_num) (add_nonneg h1 hdS), min_le_left _ _,
    le_max_left _ _,
    max_le (by norm_num)
      (le_trans (sub_le_self _ (happinessDrain_nonneg _ _ _ hdm.le)) h4),
    le_max_left _ _,
    max_le (by norm_num) (le_trans (sub_le_self _ hdE) h6),
    h7, h8, h9, h10⟩

theorem sleepTick_stats (s : PetState) (ch : Int) (h : statsIn s) :
    statsIn (sleepTick s ch) := by
  have hE : ENERGY_REGEN_SLEEP = 8 := rfl
  have hH : HAPPINESS_REGEN_SLEEP = 2 := rfl
  unfold statsIn at h ⊢
  unfold sleepTick
  dsimp only
  split
  all_goals dsimp only
  all_goals omega

theorem tickBody_stats (stage : String) (base : Rat) (i : Nat) (s : PetState)
    (hm im : String) (g : RandS) (h : statsIn s) :
    statsIn (tickBody stage base i s hm im g).1 := by
  have hfD : 0 ≤ decayInt DISCIPLINE_DECAY (decayModifier stage) :=
    decayInt_nonneg _ _ (by decide) (decayModifier_pos stage).le
  unfold tickBody
  dsimp only
  rw [statsIn_illnessStep]
  refine statsIn_health_clamp _ _ ?_
  have hs1 : statsIn
      { s with discipline := max 0 (s.discipline - decayInt DISCIPLINE_DECAY (decayModifier stage)) } := by
    unfold statsIn at h ⊢
    dsimp only
    omega
  split
  · exact awakeTick_stats _ _ _ _ _ (decayModifier_pos stage) hs1
  · exact sleepTick_stats _ _ hs1

theorem tickLoop_stats (stage : String) (base clock : Rat) (fuel i : Nat)
    (s : PetState) (hm im : String) (g : RandS) (h : statsIn s) :
    statsIn (tickLoop stage base clock fuel i s hm im g).st := by
  induction fuel generalizing i s hm im g with
  | zero => simpa [tickLoop] using h
  | succ n ih =>
    unfold tickLoop
    dsimp only
    split
    · exact (statsIn_checkDeath s _ clock g).mpr h
    · exact ih _ _ _ _ _ (tickBody_stats _ _ _ _ _ _ _
        ((statsIn_checkDeath s _ clock g).mpr h))

/-- Tick replay preserves the clamp invariant. -/
theorem updateNeeds_stats (s : PetState) (now : Rat) (g : RandS)
    (h : statsIn s) : statsIn (updateNeeds s now g).1 := by
  unfold updateNeeds
  dsimp only
  split
  · exact h
  · split
    · exact h
    · split
      · exact tickLoop_stats _ _ _ _ _ _ _ _ _ h
      · rw [statsIn_checkDeath]
        have := tickLoop_stats (getStage s now) s.last_updated_timestamp now
          (⌊(now - s.last_updated_timestamp) / ((UPDATE_INTERVAL_SECONDS : Int) : Rat)⌋).toNat
          0 s "" "" g h
        unfold statsIn at this ⊢
        dsimp only
        exact this

/-- Every food item of the default table restores at least one hunger
point. -/
theorem food_hunger_restore_pos (fn : String) (f : FoodItem)
    (h : FOOD_ITEMS.lookup fn = some f) : 1 ≤ f.hunger_restore := by
  simp only [FOOD_ITEMS, List.lookup] at h
  repeat' split at h
  all_goals simp_all
  all_goals subst h
  all_goals decide

theorem feed_stats (s : PetState) (fn : String) (now : Rat) (g : RandS)
    (h : statsIn s) : statsIn (feed s fn now g).1 := by
  unfold feed
  dsimp only
  split
  · exact h
  · split
    · exact h
    · split
      · exact h
      · rename_i food heq
        split
        · exact h
        · obtain ⟨h1, h2, h3, h4, h5, h6, h7, h8, h9, h10⟩ := h
          have hr := food_hunger_restore_pos fn food heq
          unfold statsIn
          dsimp only
          refine ⟨?_, ?_, ?_, ?_, h5, h6, ?_, ?_, h9, h10⟩
          all_goals repeat' split
          all_goals omega

theorem playGame_stats (s : PetState) (gt : Option String) (out)
    (h : statsIn s) (hout : playGame s gt = some out) : statsIn out.1 := by
  unfold playGame at hout
  repeat' split at hout
  all_goals simp_all
  all_goals (cases hout; exact h)

theorem attemptSleep_stats (s : PetState) (h : statsIn s) :
    statsIn (attemptSleep s).1 := by
  unfold attemptSleep
  repeat' split
  all_goals exact h

theorem wake_stats (s : PetState) (reason : Option String) (now : Rat)
    (g : RandS) (h : statsIn s) : statsIn (wake s reason now g).1 := by
  unfold wake
  dsimp only
  split
  · exact h
  · have := updateNeeds_stats { s with awake := true } now g
      (by unfold statsIn at h ⊢; exact h)
    unfold statsIn at this ⊢
    exact this

theorem clean_stats (s : PetState) (hp : 0 ≤ s.poop_count) (h : statsIn s) :
    statsIn (clean s).1 := by
  unfold clean
  dsimp only
  split
  · exact h
  · obtain ⟨h1, h2, h3, h4, h5, h6, h7, h8, h9, h10⟩ := h
    unfold statsIn
    dsimp only
    refine ⟨h1, h2, ?_, ?_, h5, h6, h7, h8, h9, h10⟩
    all_goals omega

theorem giveMedicine_stats (s : PetState) (h : statsIn s) :
    statsIn (giveMedicine s).1 := by
  have hM : MEDICINE_HEALTH_GAIN = 40 := rfl
  unfold giveMedicine
  dsimp only
  split
  · exact h
  · obtain ⟨h1, h2, h3, h4, h5, h6, h7, h8, h9, h10⟩ := h
    unfold statsIn
    dsimp only
    simp only [apply_ite PetState.hunger, apply_ite PetState.happiness,
      apply_ite PetState.energy, apply_ite PetState.health,
      apply_ite PetState.discipline, ite_self]
    repeat' split
    all_goals omega

theorem scold_stats (s : PetState) (h : statsIn s) : statsIn (scold s).1 := by
  unfold scold
  split
  · exact h
  · obtain ⟨h1, h2, h3, h4, h5, h6, h7, h8, h9, h10⟩ := h
    have hG : SCOLD_DISCIPLINE_GAIN = 15 := rfl
    have hL : SCOLD_HAPPINESS_LOSS = 10 := rfl
    exact ⟨h1, h2, by dsimp only; omega, by dsimp only; omega, h5, h6, h7, h8,
      by dsimp only; omega, by dsimp only; omega⟩

theorem train_stats (s : PetState) (tr : Option String) (clock : Rat)
    (g : RandS) (h : statsIn s) : statsIn (train s tr clock g).1 := by
  have hc1 : TRAIN_ENERGY_COST = 15 := rfl
  have hc2 : TRAIN_DISCIPLINE_GAIN = 5 := rfl
  have hc3 : TRAIN_HAPPINESS_GAIN = 10 := rfl
  have hc4 : TRAIN_FAILURE_DISCIPLINE_LOSS = -2 := rfl
  have hc5 : TRAIN_FAILURE_HAPPINESS_LOSS = -10 := rfl
  unfold train
  dsimp only
  repeat' split
  all_goals first
  | exact h
  | (obtain ⟨h1, h2, h3, h4, h5, h6, h7, h8, h9, h10⟩ := h
     unfold statsIn
     dsimp only
     refine ⟨h1, h2, ?_, ?_, ?_, ?_, h7, h8, ?_, ?_⟩
     all_goals omega)

theorem doTrick_stats (s : PetState) (tn : String) (g : RandS)
    (h : statsIn s) : statsIn (doTrick s tn g).1 := by
  have hc1 : TRICK_ENERGY_COST = 15 := rfl
  have hc2 : TRICK_DANCE_HAPPINESS_BOOST = 25 := rfl
  have hc3 : TRICK_SING_HAPPINESS_BOOST = 20 := rfl
  have hc4 : TRICK_FETCH_HAPPINESS_BOOST = 15 := rfl
  unfold doTrick applyTrick
  repeat' split
  all_goals first
  | exact h
  | (obtain ⟨h1, h2, h3, h4, h5, h6, h7, h8, h9, h10⟩ := h
     unfold statsIn
     dsimp only
     refine ⟨h1, h2, ?_, ?_, ?_, ?_, h7, h8, h9, h10⟩
     all_goals omega)

theorem pet_stats (s : PetState) (h : statsIn s) : statsIn (pet s).1 := by
  unfold pet
  split
  · exact h
  · obtain ⟨h1, h2, h3, h4, h5, h6, h7, h8, h9, h10⟩ := h
    have hG : PET_HAPPINESS_GAIN = 5 := rfl
    exact ⟨h1, h2, by dsimp only; omega, by dsimp only; omega, h5, h6, h7, h8, h9, h10⟩

/-- C4: from any creature state of the data model (the five clamped stats in
`[0,100]`; waste count nonnegative per §3) every action handler and the tick
replay — under arbitrary random draws — leave all five clamped stats inside
`[0,100]`. -/
theorem claim_C4_clamp_invariant (s : PetState) (h : statsIn s)
    (hp : 0 ≤ s.poop_count) :
    (∀ now g, statsIn (updateNeeds s now g).1) ∧
    (∀ fn now g, statsIn (feed s fn now g).1) ∧
    (∀ gt out, playGame s gt = some out → statsIn out.1) ∧
    statsIn (attemptSleep s).1 ∧
    (∀ reason now g, statsIn (wake s reason now g).1) ∧
    statsIn (clean s).1 ∧
    statsIn (giveMedicine s).1 ∧
    statsIn (scold s).1 ∧
    (∀ tr clock g, statsIn (train s tr clock g).1) ∧
    (∀ tn g, statsIn (doTrick s tn g).1) ∧
    statsIn (pet s).1 := by
  exact ⟨fun now g => updateNeeds_stats s now g h,
    fun fn now g => feed_stats s fn now g h,
    fun gt out hout => playGame_stats s gt out h hout,
    attemptSleep_stats s h,
    fun reason now g => wake_stats s reason now g h,
    clean_stats s hp h,
    giveMedicine_stats s h,
    scold_stats s h,
    fun tr clock g => train_stats s tr clock g h,
    fun tn g => doTrick_stats s tn g h,
    pet_stats s h⟩

/-- Witness for C4 at the freshly created pet. -/
theorem claim_C4_witness :
    statsIn (PetState.fresh "Mochi" 0) ∧
    statsIn (clean (PetState.fresh "Mochi" 0)).1 ∧
    statsIn (scold (PetState.fresh "Mochi" 0)).1 := by
  have h1 : statsIn (PetState.fresh "Mochi" 0) := by decide
  have h2 : (0 : Int) ≤ (PetState.fresh "Mochi" 0).poop_count := by decide
  have H := claim_C4_clamp_invariant (PetState.fresh "Mochi" 0) h1 h2
  exact ⟨h1, H.2.2.2.2.2.1, H.2.2.2.2.2.2.2.1⟩

/-- C5: the sustained-maximum-hunger (starvation) mechanism.  When no
higher-priority death applies (`health > 0`, age within bounds so the
old-age roll is not taken) and happiness is positive (the separate despair
block does not interfere): the critical-since tracker is set to the
reference time the first time hunger is at 100; while set, the evaluation
compares `now - start` against the critical duration and kills with the
starvation reason exactly when it is exceeded; and the tracker is cleared
the moment hunger is below 100. -/
theorem claim_C5_starvation (s : PetState) (now clock : Rat) (g : RandS)
    (hdead : s.is_dead = false) (hhealth : 0 < s.health)
    (hage : getAgeInDays s clock ≤ MAX_AGE_DAYS) (hhap : 0 < s.happiness) :
    (100 ≤ s.hunger → s.time_hunger_critical_start = 0 →
      (checkDeathConditions s now clock g).1.time_hunger_critical_start = now ∧
      (checkDeathConditions s now clock g).1.is_dead = false) ∧
    (100 ≤ s.hunger → s.time_hunger_critical_start ≠ 0 →
      MAX_TIME_CRITICAL_SECONDS < now - s.time_hunger_critical_start →
      (checkDeathConditions s now clock g).1.is_dead = true ∧
      (checkDeathConditions s now clock g).1.last_needs_message =
        deathMsg s.name "starved" ∧
      (checkDeathConditions s now clock g).1.event_log =
        addEvent s.event_log "Died (starved)") ∧
    (100 ≤ s.hunger → s.time_hunger_critical_start ≠ 0 →
      now - s.time_hunger_critical_start ≤ MAX_TIME_CRITICAL_SECONDS →
      (checkDeathConditions s now clock g).1.is_dead = false ∧
      (checkDeathConditions s now clock g).1.time_hunger_critical_start =
        s.time_hunger_critical_start) ∧
    (s.hunger < 100 →
      (checkDeathConditions s now clock g).1.time_hunger_critical_start = 0 ∧
      (checkDeathConditions s now clock g).1.is_dead = false) := by
  have hA : ¬(s.is_dead = true) := by simp [hdead]
  have hB : ¬(s.health ≤ 0) := by omega
  have hC : ¬(MAX_AGE_DAYS < getAgeInDays s clock ∧
      rhead g < ((getAgeInDays s clock - MAX_AGE_DAYS : Int) : Rat) * (5 / 100)) := by
    rintro ⟨hgt, -⟩
    omega
  have hE : ¬(s.happiness ≤ 0) := by omega
  unfold checkDeathConditions deathChainMain despairStep
  dsimp only
  rw [if_neg hA, if_neg hB, if_neg hC]
  refine ⟨fun hh ht => ?_, fun hh ht hx => ?_, fun hh ht hx => ?_, fun hh => ?_⟩
  · rw [if_pos hh, if_pos ht]
    dsimp only
    rw [if_neg hE]
    dsimp only
    exact ⟨rfl, hdead⟩
  · rw [if_pos hh, if_neg ht, if_pos hx]
    dsimp only
    rw [if_neg hE]
    dsimp only
    exact ⟨rfl, rfl, rfl⟩
  · rw [if_pos hh, if_neg ht, if_neg (not_lt.mpr hx)]
    dsimp only
    rw [if_neg hE]
    dsimp only
    exact ⟨hdead, rfl⟩
  · rw [if_neg (by omega : ¬(100 ≤ s.hunger))]
    dsimp only
    rw [if_neg hE]
    dsimp only
    exact ⟨rfl, hdead⟩

/-- Witness for C5: `sC5` starves at reference time 4000. -/
theorem claim_C5_witness :
    (100 ≤ sC5.hunger) ∧
    (checkDeathConditions sC5 4000 4000 gHalf).1.is_dead = true ∧
    (checkDeathConditions sC5 4000 4000 gHalf).1.last_needs_message =
      deathMsg "Ivy" "starved" := by
  have H := claim_C5_starvation sC5 4000 4000 gHalf (by decide) (by decide)
    (by with_unfolding_all decide) (by decide)
  obtain ⟨hd, hm, -⟩ := H.2.1 (by decide) (by with_unfolding_all decide)
    (by with_unfolding_all decide)
  exact ⟨by decide, hd, hm⟩

/-- When the separate despair block does not fire, it keeps the reason
selected by the main chain and only maintains its tracker. -/
theorem despairStep_keep (r0 : Option String) (s0 : PetState) (now : Rat)
    (h : ¬(s0.happiness ≤ 0 ∧ s0.time_happiness_critical_start ≠ 0 ∧
      MAX_TIME_CRITICAL_SECONDS < now - s0.time_happiness_critical_start)) :
    (despairStep r0 s0 now).1 = r0 ∧
    ∃ t2, (despairStep r0 s0 now).2 = { s0 with time_happiness_critical_start := t2 } := by
  unfold despairStep
  by_cases h1 : s0.happiness ≤ 0
  · rw [if_pos h1]
    by_cases h2 : s0.time_happiness_critical_start = 0
    · rw [if_pos h2]
      exact ⟨rfl, now, rfl⟩
    · rw [if_neg h2]
      have h3 : ¬(MAX_TIME_CRITICAL_SECONDS < now - s0.time_happiness_critical_start) :=
        fun hx => h ⟨h1, h2, hx⟩
      rw [if_neg h3]
      exact ⟨rfl, s0.time_happiness_critical_start, by dsimp only⟩
  · rw [if_neg h1]
    exact ⟨rfl, 0, rfl⟩

/-- When the sustained-despair condition holds, the block overwrites any
previously selected reason. -/
theorem despairStep_fire (r0 : Option String) (s0 : PetState) (now : Rat)
    (h1 : s0.happiness ≤ 0) (h2 : s0.time_happiness_critical_start ≠ 0)
    (h3 : MAX_TIME_CRITICAL_SECONDS < now - s0.time_happiness_critical_start) :
    despairStep r0 s0 now = (some "lost the will to live", s0) := by
  unfold despairStep
  rw [if_pos h1, if_neg h2, if_pos h3]

/-- C6, counterexample.  In `sC6` the poor-health check (`health ≤ 0`)
matches first, but the separately evaluated despair block overwrites the
selected reason in the same invocation: the pet dies with the despair
message, not the poor-health one. -/
theorem claim_C6_counterexample :
    sC6.health ≤ 0 ∧
    (checkDeathConditions sC6 4000 4000 gHalf).1.is_dead = true ∧
    (checkDeathConditions sC6 4000 4000 gHalf).1.last_needs_message =
      deathMsg "Moss" "lost the will to live" ∧
    (checkDeathConditions sC6 4000 4000 gHalf).1.last_needs_message ≠
      deathMsg "Moss" "succumbed to poor health" := by
  with_unfolding_all decide

/-- C6, amended: the first three checks (poor health, stochastic old age,
sustained starvation) form a first-match-wins `elif` chain in that priority
order, but the sustained-despair check is evaluated separately afterwards
and, when its condition holds, overwrites the reason selected by the
chain. -/
theorem claim_C6_amended (s : PetState) (now clock : Rat) (g : RandS)
    (hdead : s.is_dead = false) :
    (s.health ≤ 0 →
      ¬(s.happiness ≤ 0 ∧ s.time_happiness_critical_start ≠ 0 ∧
        MAX_TIME_CRITICAL_SECONDS < now - s.time_happiness_critical_start) →
      (checkDeathConditions s now clock g).1.is_dead = true ∧
      (checkDeathConditions s now clock g).1.last_needs_message =
        deathMsg s.name "succumbed to poor health") ∧
    (s.health ≤ 0 → s.happiness ≤ 0 → s.time_happiness_critical_start ≠ 0 →
      MAX_TIME_CRITICAL_SECONDS < now - s.time_happiness_critical_start →
      (checkDeathConditions s now clock g).1.is_dead = true ∧
      (checkDeathConditions s now clock g).1.last_needs_message =
        deathMsg s.name "lost the will to live") ∧
    (0 < s.health →
      (MAX_AGE_DAYS < getAgeInDays s clock ∧
        rhead g < ((getAgeInDays s clock - MAX_AGE_DAYS : Int) : Rat) * (5 / 100)) →
      ¬(s.happiness ≤ 0 ∧ s.time_happiness_critical_start ≠ 0 ∧
        MAX_TIME_CRITICAL_SECONDS < now - s.time_happiness_critical_start) →
      (checkDeathConditions s now clock g).1.is_dead = true ∧
      (checkDeathConditions s now clock g).1.last_needs_message =
        deathMsg s.name "passed away peacefully from old age") ∧
    (0 < s.health →
      ¬(MAX_AGE_DAYS < getAgeInDays s clock ∧
        rhead g < ((getAgeInDays s clock - MAX_AGE_DAYS : Int) : Rat) * (5 / 100)) →
      100 ≤ s.hunger → s.time_hunger_critical_start ≠ 0 →
      MAX_TIME_CRITICAL_SECONDS < now - s.time_hunger_critical_start →
      ¬(s.happiness ≤ 0 ∧ s.time_happiness_critical_start ≠ 0 ∧
        MAX_TIME_CRITICAL_SECONDS < now - s.time_happiness_critical_start) →
      (checkDeathConditions s now clock g).1.is_dead = true ∧
      (checkDeathConditions s now clock g).1.last_needs_message =
        deathMsg s.name "starved") := by
  unfold checkDeathConditions
  dsimp only
  rw [if_neg (show ¬(s.is_dead = true) by simp [hdead])]
  refine ⟨fun hh hnd => ?_, fun hh h1 h2 h3 => ?_, fun hh hac hnd => ?_,
    fun hh hac h100 ht hx hnd => ?_⟩
  · have hc : deathChainMain s now clock g = (some "succumbed to poor health", s) := by
      unfold deathChainMain
      rw [if_pos hh]
    rw [hc]
    dsimp only
    obtain ⟨hk, t2, hs⟩ := despairStep_keep (some "succumbed to poor health") s now hnd
    rw [hk, hs]
    exact ⟨rfl, rfl⟩
  · have hc : deathChainMain s now clock g = (some "succumbed to poor health", s) := by
      unfold deathChainMain
      rw [if_pos hh]
    rw [hc]
    dsimp only
    rw [despairStep_fire _ s now h1 h2 h3]
    dsimp only
    exact ⟨rfl, rfl⟩
  · have hc : deathChainMain s now clock g =
        (some "passed away peacefully from old age", s) := by
      unfold deathChainMain
      rw [if_neg (by omega : ¬(s.health ≤ 0)), if_pos hac]
    rw [hc]
    dsimp only
    obtain ⟨hk, t2, hs⟩ := despairStep_keep _ s now hnd
    rw [hk, hs]
    exact ⟨rfl, rfl⟩
  · have hc : deathChainMain s now clock g = (some "starved", s) := by
      unfold deathChainMain
      rw [if_neg (by omega : ¬(s.health ≤ 0)), if_neg hac, if_pos h100,
        if_neg ht, if_pos hx]
    rw [hc]
    dsimp only
    obtain ⟨hk, t2, hs⟩ := despairStep_keep _ s now hnd
    rw [hk, hs]
    exact ⟨rfl, rfl⟩

/-- Witness for the amended C6 at `sC6`: with both poor health and expired
despair present, the despair reason wins. -/
theorem claim_C6_witness :
    (checkDeathConditions sC6 4000 4000 gHalf).1.is_dead = true ∧
    (checkDeathConditions sC6 4000 4000 gHalf).1.last_needs_message =
      deathMsg sC6.name "lost the will to live" := by
  exact (claim_C6_amended sC6 4000 4000 gHalf (by decide)).2.1 (by decide)
    (by decide) (by with_unfolding_all decide) (by with_unfolding_all decide)

/-- C2, counterexample.  `sDead` is dead, yet `clean` succeeds and mutates
it, `give_medicine` succeeds and mutates it, and `wake` sets `awake` back
to `true`. -/
theorem claim_C2_counterexample :
    sDead.is_dead = true ∧
    (clean sDead).2.2 = true ∧ (clean sDead).1 ≠ sDead ∧
    (giveMedicine sDead).2.2 = true ∧ (giveMedicine sDead).1 ≠ sDead ∧
    (wake sDead none 5000 gHalf).2.2.1 = true ∧
    (wake sDead none 5000 gHalf).1.awake = true := by
  with_unfolding_all decide

/-- C2, amended: in any reachable dead state `awake` is `false` (death
forces it), so the handlers guarded by an awake check — feed, play,
attempt_sleep, scold, train, do_trick, pet — are no-ops returning
success = false, and `update_needs` returns immediately; but `clean` and
`give_medicine` are unguarded (see the counterexample) and `wake` sets
`awake` back to `true` and reports success on a dead pet. -/
theorem claim_C2_amended (s : PetState) (fn : String) (gt tk r : Option String)
    (tn : String) (now clock : Rat) (g : RandS)
    (hd : s.is_dead = true) (ha : s.awake = false) :
    feed s fn now g = (s, sleepingMsg s.name, false, g) ∧
    playGame s gt = some (s, sleepingMsg s.name, false) ∧
    ((attemptSleep s).1 = s ∧ (attemptSleep s).2.2 = false) ∧
    scold s = (s, sleepingMsg s.name, false) ∧
    ((train s tk clock g).1 = s ∧ (train s tk clock g).2.2.1 = false) ∧
    doTrick s tn g = (s, sleepingMsg s.name, false, g) ∧
    pet s = (s, sleepingMsg s.name, false) ∧
    updateNeeds s now g = (s, false, g) ∧
    ((wake s r now g).1.awake = true ∧ (wake s r now g).2.2.1 = true) := by
  refine ⟨?_, ?_, ?_, ?_, ?_, ?_, ?_, updateNeeds_dead s now g hd, ?_⟩
  · simp [feed, ha]
  · simp [playGame, ha]
  · simp [attemptSleep, ha]
  · simp [scold, ha]
  · by_cases hb : getStage s clock = "Baby"
    · simp [train, hb]
    · simp [train, hb, ha]
  · simp [doTrick, ha]
  · simp [pet, ha]
  · have hu : updateNeeds { s with awake := true } now g =
        ({ s with awake := true }, false, g) :=
      updateNeeds_dead _ now g hd
    unfold wake
    rw [if_neg (by simp [ha])]
    dsimp only
    rw [hu]
    exact ⟨rfl, rfl⟩

/-- Witness for the amended C2 at the concrete dead state `sDead`. -/
theorem claim_C2_witness :
    feed sDead "apple" 5000 gHalf = (sDead, sleepingMsg sDead.name, false, gHalf) ∧
    scold sDead = (sDead, sleepingMsg sDead.name, false) ∧
    updateNeeds sDead 5000 gHalf = (sDead, false, gHalf) := by
  have h := claim_C2_amended sDead "apple" none none none "sing" 5000 5000 gHalf
    (by decide) (by decide)
  exact ⟨h.1, h.2.2.2.1, h.2.2.2.2.2.2.2.1⟩

set_option maxRecDepth 100000 in
/-- C7, counterexample.  A record carrying only a last-update stamp (999)
deserialized at current time 5000 gets birthday 999, not the current time:
the birthday default is `data.get("last_updated_timestamp", time.time())`,
so it only falls back to the current time when the last-update stamp is
itself absent. -/
theorem claim_C7_counterexample :
    (fromDict { emptySave with last_updated_timestamp := some 999 } 5000).birthday_timestamp
      = 999 ∧ (999 : Rat) ≠ 5000 := by
  with_unfolding_all decide

/-- C7, amended: round-trip through `to_dict`/`from_dict` reproduces every
persisted field for states whose event log fits the capacity and which, if
dead, are asleep (`from_dict` forces a dead record asleep and rebuilds the
log with `maxlen`); the non-persisted needs message is reset to the empty
string.  A fully missing record yields the documented fresh defaults except
for an empty event log; a missing birthday defaults to the stored
last-update stamp when present, and to the current time only otherwise. -/
theorem claim_C7_amended (s : PetState) (now : Rat)
    (h1 : s.is_dead = true → s.awake = false)
    (h2 : s.event_log.length ≤ EVENT_LOG_SIZE) :
    fromDict (toDict s) now = { s with last_needs_message := "" } ∧
    fromDict emptySave now = { PetState.fresh "Critter" now with event_log := [] } ∧
    ∀ d : SaveData, d.birthday_timestamp = none →
      (fromDict d now).birthday_timestamp = d.last_updated_timestamp.getD now := by
  refine ⟨?_, ?_, ?_⟩
  · have hev : s.event_log.drop (s.event_log.length - EVENT_LOG_SIZE) = s.event_log := by
      rw [Nat.sub_eq_zero_of_le h2]
      exact List.drop_zero _
    unfold fromDict toDict
    dsimp only
    split
    · rename_i hcond
      simp [h1 hcond, hev, PetState.fresh]
    · simp [hev, PetState.fresh]
  · rfl
  · intro d hdm
    unfold fromDict
    dsimp only
    split
    · dsimp only
      rw [hdm]
      rfl
    · dsimp only
      rw [hdm]
      rfl

/-- Witness for the amended C7 on a concrete fresh pet. -/
theorem claim_C7_witness :
    fromDict (toDict (PetState.fresh "Kit" 7)) 7 =
      { PetState.fresh "Kit" 7 with last_needs_message := "" } :=
  (claim_C7_amended (PetState.fresh "Kit" 7) 7 (by decide) (by decide)).1

theorem strNeR (a b : String) (h : b ≠ "") : a ++ b ≠ "" := by
  intro hc
  apply h
  have hl : (a ++ b).length = 0 := by rw [hc]; rfl
  rw [String.length_append] at hl
  have hb : b.length = 0 := by omega
  obtain ⟨d⟩ := b
  cases d with
  | nil => rfl
  | cons x xs => simp [String.length] at hb

theorem strNeL (a b : String) (h : a ≠ "") : a ++ b ≠ "" := by
  intro hc
  apply h
  have hl : (a ++ b).length = 0 := by rw [hc]; rfl
  rw [String.length_append] at hl
  have hb : a.length = 0 := by omega
  obtain ⟨d⟩ := a
  cases d with
  | nil => rfl
  | cons x xs => simp [String.length] at hb

theorem feed_cases (s : PetState) (fn : String) (now : Rat) (g : RandS) :
    (feed s fn now g).2.2.1 = true ∨
      ((feed s fn now g).1 = s ∧ (feed s fn now g).2.1 ≠ "") := by
  unfold feed sleepingMsg refusalMessage
  dsimp only
  repeat' split
  all_goals
    first
      | exact Or.inl rfl
      | exact Or.inr ⟨rfl, strNeR _ _ (by decide)⟩
      | exact Or.inr ⟨rfl, strNeL _ _ (by decide)⟩

theorem playGame_cases (s : PetState) (gt : Option String) :
    ∀ out, playGame s gt = some out →
      out.1 = s ∧ out.2.1 ≠ "" ∧ out.2.2 = false := by
  intro out h
  unfold playGame sleepingMsg at h
  repeat' split at h
  all_goals
    first
      | exact Option.noConfusion h
      | (injection h with h1
         subst h1
         refine ⟨rfl, ?_, rfl⟩
         first
           | exact strNeR _ _ (by decide)
           | exact strNeL _ _ (by decide)
           | decide)

theorem attemptSleep_cases (s : PetState) :
    (attemptSleep s).2.2 = true ∨
      ((attemptSleep s).1 = s ∧ (attemptSleep s).2.1 ≠ "") := by
  unfold attemptSleep
  repeat' split
  all_goals
    first
      | exact Or.inl rfl
      | exact Or.inr ⟨rfl, strNeR _ _ (by decide)⟩
      | exact Or.inr ⟨rfl, strNeL _ _ (by decide)⟩

theorem clean_cases (s : PetState) :
    (clean s).2.2 = true ∨ ((clean s).1 = s ∧ (clean s).2.1 ≠ "") := by
  unfold clean
  repeat' split
  all_goals
    first
      | exact Or.inl rfl
      | (refine Or.inr ⟨rfl, ?_⟩
         try dsimp only
         decide)

theorem giveMedicine_cases (s : PetState) :
    (giveMedicine s).2.2 = true ∨
      ((giveMedicine s).1 = s ∧ (giveMedicine s).2.1 ≠ "") := by
  unfold giveMedicine
  dsimp only
  repeat' split
  all_goals
    first
      | exact Or.inl rfl
      | exact Or.inr ⟨rfl, strNeR _ _ (by decide)⟩

theorem scold_cases (s : PetState) :
    (scold s).2.2 = true ∨ ((scold s).1 = s ∧ (scold s).2.1 ≠ "") := by
  unfold scold sleepingMsg
  repeat' split
  all_goals
    first
      | exact Or.inl rfl
      | exact Or.inr ⟨rfl, strNeR _ _ (by decide)⟩

theorem train_cases (s : PetState) (tk : Option String) (clock : Rat)
    (g : RandS) :
    (train s tk clock g).2.2.1 = true ∨
      ((train s tk clock g).1 = s ∧ (train s tk clock g).2.1 ≠ "") := by
  unfold train sleepingMsg
  dsimp only
  repeat' split
  all_goals
    first
      | exact Or.inl rfl
      | (refine Or.inr ⟨rfl, ?_⟩
         try dsimp only
         first
           | exact strNeR _ _ (by decide)
           | exact strNeL _ _ (by decide)
           | decide)

theorem doTrick_cases (s : PetState) (tn : String) (g : RandS) :
    (doTrick s tn g).2.2.1 = true ∨
      ((doTrick s tn g).1 = s ∧ (doTrick s tn g).2.1 ≠ "") := by
  unfold doTrick sleepingMsg applyTrick
  repeat' split
  all_goals
    first
      | exact Or.inl rfl
      | exact Or.inr ⟨rfl, strNeR _ _ (by decide)⟩
      | exact Or.inr ⟨rfl, strNeL _ _ (by decide)⟩

theorem pet_cases (s : PetState) :
    (pet s).2.2 = true ∨ ((pet s).1 = s ∧ (pet s).2.1 ≠ "") := by
  unfold pet sleepingMsg
  repeat' split
  all_goals
    first
      | exact Or.inl rfl
      | exact Or.inr ⟨rfl, strNeR _ _ (by decide)⟩

/-- C8: whenever feed, play, attempt_sleep, clean, give_medicine, scold,
train, do_trick or pet returns success = false, the creature state is
returned unchanged and the accompanying message is nonempty.  (`wake`
returns no message on its only failure, being already awake, which is not
among the failure cases the claim enumerates.) -/
theorem claim_C8 (s : PetState) (fn tn : String) (gt tk : Option String)
    (now clock : Rat) (g : RandS) :
    ((feed s fn now g).2.2.1 = false →
      (feed s fn now g).1 = s ∧ (feed s fn now g).2.1 ≠ "") ∧
    (∀ out, playGame s gt = some out → out.2.2 = false →
      out.1 = s ∧ out.2.1 ≠ "") ∧
    ((attemptSleep s).2.2 = false →
      (attemptSleep s).1 = s ∧ (attemptSleep s).2.1 ≠ "") ∧
    ((clean s).2.2 = false → (clean s).1 = s ∧ (clean s).2.1 ≠ "") ∧
    ((giveMedicine s).2.2 = false →
      (giveMedicine s).1 = s ∧ (giveMedicine s).2.1 ≠ "") ∧
    ((scold s).2.2 = false → (scold s).1 = s ∧ (scold s).2.1 ≠ "") ∧
    ((train s tk clock g).2.2.1 = false →
      (train s tk clock g).1 = s ∧ (train s tk clock g).2.1 ≠ "") ∧
    ((doTrick s tn g).2.2.1 = false →
      (doTrick s tn g).1 = s ∧ (doTrick s tn g).2.1 ≠ "") ∧
    ((pet s).2.2 = false → (pet s).1 = s ∧ (pet s).2.1 ≠ "") := by
  refine ⟨fun h => (feed_cases s fn now g).resolve_left (by simp [h]),
    fun out ho _ => ⟨(playGame_cases s gt out ho).1, (playGame_cases s gt out ho).2.1⟩,
    fun h => (attemptSleep_cases s).resolve_left (by simp [h]),
    fun h => (clean_cases s).resolve_left (by simp [h]),
    fun h => (giveMedicine_cases s).resolve_left (by simp [h]),
    fun h => (scold_cases s).resolve_left (by simp [h]),
    fun h => (train_cases s tk clock g).resolve_left (by simp [h]),
    fun h => (doTrick_cases s tn g).resolve_left (by simp [h]),
    fun h => (pet_cases s).resolve_left (by simp [h])⟩

/-- Witness for C8: the sleeping pet `sC1` rejects feed, sleep, scold,
do_trick and pet with nonempty messages and no state change, and a fresh
pet with no waste and full health rejects clean and medicine likewise. -/
theorem claim_C8_witness :
    ((feed sC1 "apple" 2000 gHalf).1 = sC1 ∧ (feed sC1 "apple" 2000 gHalf).2.1 ≠ "") ∧
    ((attemptSleep sC1).1 = sC1 ∧ (attemptSleep sC1).2.1 ≠ "") ∧
    ((scold sC1).1 = sC1 ∧ (scold sC1).2.1 ≠ "") ∧
    ((doTrick sC1 "sing" gHalf).1 = sC1 ∧ (doTrick sC1 "sing" gHalf).2.1 ≠ "") ∧
    ((pet sC1).1 = sC1 ∧ (pet sC1).2.1 ≠ "") ∧
    ((clean (PetState.fresh "Kit" 7)).1 = PetState.fresh "Kit" 7 ∧
      (clean (PetState.fresh "Kit" 7)).2.1 ≠ "") ∧
    ((giveMedicine (PetState.fresh "Kit" 7)).1 = PetState.fresh "Kit" 7 ∧
      (giveMedicine (PetState.fresh "Kit" 7)).2.1 ≠ "") := by
  have h1 := claim_C8 sC1 "apple" "sing" none none 2000 2000 gHalf
  have h2 := claim_C8 (PetState.fresh "Kit" 7) "apple" "sing" none none 7 7 gHalf
  exact ⟨h1.1 (by with_unfolding_all decide),
    h1.2.2.1 (by decide),
    h1.2.2.2.2.2.1 (by decide),
    h1.2.2.2.2.2.2.2.1 (by decide),
    h1.2.2.2.2.2.2.2.2 (by decide),
    h2.2.2.2.1 (by decide),
    h2.2.2.2.2.1 (by decide)⟩

/-- C9: a newly created pet has hunger 50, happiness 50, energy 100, is
alive and awake; feeding an awake, healthy (health at least 70), not
stomach-aching, non-refusing pet a known food item lowers hunger by exactly
the item's restore amount (clamped at 0) and raises weight by exactly its
gain, with success = true; feeding while asleep returns success = false
with the state unchanged. -/
theorem claim_C9 (name : String) (now : Rat) (s : PetState) (fn : String)
    (food : FoodItem) (g : RandS) :
    ((PetState.fresh name now).hunger = 50 ∧
     (PetState.fresh name now).happiness = 50 ∧
     (PetState.fresh name now).energy = 100 ∧
     (PetState.fresh name now).is_dead = false ∧
     (PetState.fresh name now).awake = true) ∧
    (s.awake = true → 70 ≤ s.health → s.illness_type ≠ some "Stomachache" →
      FOOD_ITEMS.lookup fn = some food → (shouldRefuse s g).1 = false →
      (feed s fn now g).1.hunger = max 0 (s.hunger - food.hunger_restore) ∧
      (feed s fn now g).1.weight = s.weight + food.weight_gain ∧
      (feed s fn now g).2.2.1 = true) ∧
    (s.awake = false → feed s fn now g = (s, sleepingMsg s.name, false, g)) := by
  refine ⟨⟨rfl, rfl, rfl, rfl, rfl⟩, ?_, ?_⟩
  · intro ha hh70 hill hlk href
    unfold feed
    dsimp only
    rw [if_neg (by simp [ha])]
    rw [if_neg (by simp [href])]
    rw [hlk]
    dsimp only
    rw [if_neg hill]
    simp only [if_neg (show ¬(s.health < 40) by omega),
      if_neg (show ¬(s.health < 70) by omega)]
    refine ⟨?_, ?_, ?_⟩ <;> trivial
  · intro ha
    unfold feed
    rw [if_pos ha]

/-- Witness for C9: a fresh pet fed an apple at its defaults, and the
sleeping `sC1` refusing food. -/
theorem claim_C9_witness :
    (PetState.fresh "Kit" 7).hunger = 50 ∧
    (feed (PetState.fresh "Kit" 7) "apple" 7 gHalf).1.hunger =
      max 0 ((PetState.fresh "Kit" 7).hunger - 15) ∧
    (feed (PetState.fresh "Kit" 7) "apple" 7 gHalf).1.weight =
      (PetState.fresh "Kit" 7).weight + 5 / 100 ∧
    (feed (PetState.fresh "Kit" 7) "apple" 7 gHalf).2.2.1 = true ∧
    feed sC1 "apple" 2000 gHalf = (sC1, sleepingMsg sC1.name, false, gHalf) := by
  have h1 := claim_C9 "Kit" 7 (PetState.fresh "Kit" 7) "apple" ⟨15, 5, 1, 5 / 100⟩ gHalf
  have h2 := claim_C9 "Kit" 7 sC1 "apple" ⟨15, 5, 1, 5 / 100⟩ gHalf
  have hf := h1.2.1 (by decide) (by decide) (by decide)
    (by with_unfolding_all decide) (by with_unfolding_all decide)
  exact ⟨h1.1.1, hf.1, hf.2.1, hf.2.2, h2.2.2 (by decide)⟩

/-- C10: while asleep, feed, play, scold, train, do_trick and pet all
reject, but clean (with waste present) and give_medicine (with an illness
or health below 95) have no awake precondition: they succeed and mutate
the state even while the creature sleeps. -/
theorem claim_C10 (s : PetState) (fn tn : String) (gt tk : Option String)
    (now clock : Rat) (g : RandS) (ha : s.awake = false) :
    feed s fn now g = (s, sleepingMsg s.name, false, g) ∧
    playGame s gt = some (s, sleepingMsg s.name, false) ∧
    scold s = (s, sleepingMsg s.name, false) ∧
    ((train s tk clock g).1 = s ∧ (train s tk clock g).2.2.1 = false) ∧
    doTrick s tn g = (s, sleepingMsg s.name, false, g) ∧
    pet s = (s, sleepingMsg s.name, false) ∧
    (0 < s.poop_count → (clean s).2.2 = true ∧ (clean s).1 ≠ s) ∧
    ((s.illness_type ≠ none ∨ s.health < 95) →
      (giveMedicine s).2.2 = true ∧ (giveMedicine s).1 ≠ s) := by
  refine ⟨by simp [feed, ha], by simp [playGame, ha], by simp [scold, ha],
    ?_, by simp [doTrick, ha], by simp [pet, ha], ?_, ?_⟩
  · by_cases hb : getStage s clock = "Baby"
    · simp [train, hb]
    · simp [train, hb, ha]
  · intro hp
    have hne : ¬(s.poop_count = 0) := by omega
    have hzero : (clean s).1.poop_count = 0 := by simp [clean, hne]
    refine ⟨by simp [clean, hne], fun he => ?_⟩
    rw [he] at hzero
    omega
  · intro hmed
    have hcond : ¬(s.illness_type.isSome = false ∧ ¬(s.health < 95)) := by
      rcases hmed with h | h
      · exact fun hx => h (Option.not_isSome_iff_eq_none.mp (by simp [hx.1]))
      · exact fun hx => hx.2 h
    refine ⟨?_, ?_⟩
    · unfold giveMedicine
      dsimp only
      rw [if_neg hcond]
    · rcases ho : s.illness_type with _ | ill
      · have hh : s.health < 95 := by
          rcases hmed with h | h
          · exact absurd ho h
          · exact h
        have hfh : (giveMedicine s).1.health =
            min 100 (s.health + MEDICINE_HEALTH_GAIN) := by
          simp [giveMedicine, ho, hh]
        intro he
        rw [he] at hfh
        have hm : MEDICINE_HEALTH_GAIN = 40 := rfl
        omega
      · have hfi : (giveMedicine s).1.illness_type = none := by
          simp [giveMedicine, ho, apply_ite PetState.illness_type, ite_self]
        intro he
        rw [he, ho] at hfi
        exact Option.noConfusion hfi

/-- Witness for C10 at the sleeping pet `sC1` (waste present, health 2):
feeding is rejected, while clean and medicine both succeed. -/
theorem claim_C10_witness :
    feed sC1 "apple" 2000 gHalf = (sC1, sleepingMsg sC1.name, false, gHalf) ∧
    ((clean sC1).2.2 = true ∧ (clean sC1).1 ≠ sC1) ∧
    ((giveMedicine sC1).2.2 = true ∧ (giveMedicine sC1).1 ≠ sC1) := by
  have h := claim_C10 sC1 "apple" "sing" none none 2000 2000 gHalf (by decide)
  exact ⟨h.1, h.2.2.2.2.2.2.1 (by decide),
    h.2.2.2.2.2.2.2 (Or.inr (by decide))⟩

set_option maxRecDepth 100000 in
/-- Witness for the amended C1: `sC1` dies mid-replay (timestamp frozen at
its old value) and a fresh healthy pet completes a 2-interval replay
(timestamp advanced by exactly 2 tick durations). -/
theorem claim_C1_witness :
    ((updateNeeds sC1 1060 gHalf).1.is_dead = true ∧
     (updateNeeds sC1 1060 gHalf).1.last_updated_timestamp = sC1.last_updated_timestamp) ∧
    (updateNeeds (PetState.fresh "Kit" 0) 60 gHalf).1.last_updated_timestamp =
      (PetState.fresh "Kit" 0).last_updated_timestamp +
        (⌊((60 : Rat) - (PetState.fresh "Kit" 0).last_updated_timestamp) /
            ((UPDATE_INTERVAL_SECONDS : Int) : Rat)⌋ : Int) *
          ((UPDATE_INTERVAL_SECONDS : Int) : Rat) := by
  exact ⟨(claim_C1_amended sC1 1060 gHalf).2.2.1 (by decide)
      (by with_unfolding_all decide) (by with_unfolding_all decide),
    (claim_C1_amended (PetState.fresh "Kit" 0) 60 gHalf).2.2.2.1 (by decide)
      (by with_unfolding_all decide) (by with_unfolding_all decide)⟩
